import Mathlib

/-!
Shallow embedding of the horcrux-monitoring repository (Python) in Lean 4.

Sources embedded here:
  * src/horcrux_monitor/models.py   — Severity, CheckStatus, CheckResult,
    CosignerStatus, SentryStatus, FullReport, AlertState
  * src/horcrux_monitor/checker.py  — Checker and all its sub-checks
  * src/horcrux_monitor/state.py    — StateManager.process_report,
    StateManager.is_scheduled_report_due
  * src/horcrux_monitor/collector.py — get_metric, get_labeled_metrics,
    parse_address (pure parts only)

Modelling conventions:
  * Python floats are modelled as rationals (the properties verified concern
    only order comparisons and exact arithmetic on small values, never
    IEEE-754 rounding).  Python int(x) truncation toward zero is `pyInt`.
  * Python dicts are modelled as insertion-ordered association lists with
    `dictGet` / `dictInsert` (inserting an existing key replaces the value in
    place; a new key is appended at the end), matching CPython semantics.
  * Wall-clock reads (time.time(), datetime.now().hour) are passed in as
    explicit parameters.
  * Fallible Python code (dataclass constructor calls that can raise
    TypeError, attribute reads that can raise AttributeError, int() parses
    that can raise ValueError) is modelled with Except PyErr.
  * Python dataclass attributes that are only ever created dynamically by the
    checker (for example report.is_raft_leader) are modelled as Option fields
    whose none value means "attribute never assigned"; reading such a field
    while it is none models an AttributeError.
-/

namespace HorcruxMonitor

-- Rational arithmetic is irreducible by default; the concrete evaluations
-- below reduce it in the kernel.
attribute [local semireducible] Rat.add Rat.sub Rat.mul

/-- Python exception kinds that the embedded code can raise. -/
inductive PyErr where
  | typeError
  | attributeError
  | valueError
  deriving DecidableEq, Repr

instance {ε α : Type} [DecidableEq ε] [DecidableEq α] : DecidableEq (Except ε α) :=
  fun x y =>
    match x, y with
    | .error a, .error b =>
      if h : a = b then .isTrue (by rw [h]) else .isFalse (fun hc => h (Except.error.inj hc))
    | .ok a, .ok b =>
      if h : a = b then .isTrue (by rw [h]) else .isFalse (fun hc => h (Except.ok.inj hc))
    | .error _, .ok _ => .isFalse (fun hc => Except.noConfusion hc)
    | .ok _, .error _ => .isFalse (fun hc => Except.noConfusion hc)

/-- Python int() truncation toward zero applied to a float (here: rational). -/
def pyInt (q : ℚ) : Int :=
  if 0 ≤ q then ⌊q⌋ else ⌈q⌉

/-! ### Insertion-ordered dictionaries (Python dict) -/

/-- Lookup in an association list, CPython dict.get semantics. -/
def dictGet {α : Type} (d : List (String × α)) (k : String) : Option α :=
  (d.find? (fun p => p.1 = k)).map (fun p => p.2)

/-- Membership test, CPython `k in d`. -/
def memKey {α : Type} (d : List (String × α)) (k : String) : Bool :=
  (dictGet d k).isSome

/-- CPython `d[k] = v`: replace the value in place if the key exists,
otherwise append the new pair at the end. -/
def dictInsert {α : Type} (d : List (String × α)) (k : String) (v : α) :
    List (String × α) :=
  if memKey d k then
    d.map (fun p => if p.1 = k then (k, v) else p)
  else
    d ++ [(k, v)]

/-! ### models.py -/

/-- models.py Severity enum. -/
inductive Severity where
  | ok
  | warning
  | critical
  deriving DecidableEq, Repr

/-- models.py CheckStatus enum. -/
inductive CheckStatus where
  | ok
  | warning
  | critical
  deriving DecidableEq, Repr

/-- models.py CheckResult dataclass (after __post_init__ ran). -/
structure CheckResult where
  name : String
  status : CheckStatus
  message : String
  severity : Severity
  alert_key : String
  deriving DecidableEq, Repr

/-- CheckResult construction including __post_init__: alert_key defaults to
name when empty, severity is derived from status. -/
def mkCheckResult (name : String) (status : CheckStatus) (message : String)
    (alert_key : String := "") : CheckResult :=
  { name := name
    status := status
    message := message
    alert_key := if alert_key = "" then name else alert_key
    severity :=
      match status with
      | .critical => .critical
      | .warning => .warning
      | .ok => .ok }

/-- models.py CosignerStatus dataclass.  Fields shard_id, address, tcp_ok and
missed_shares have no default; is_self defaults to False. -/
structure CosignerStatus where
  shard_id : Int
  address : String
  tcp_ok : Bool
  missed_shares : Option Int
  is_self : Bool
  deriving DecidableEq, Repr

/-- Python dataclass constructor call for CosignerStatus.  Each parameter is
the argument as passed at a call site (none = argument not supplied).  A
missing argument for a field without a default raises TypeError. -/
def CosignerStatus.construct (shard_id : Option Int) (address : Option String)
    (tcp_ok : Option Bool) (missed_shares : Option (Option Int))
    (is_self : Option Bool) : Except PyErr CosignerStatus :=
  match shard_id, address, tcp_ok, missed_shares with
  | some sid, some a, some t, some m =>
      .ok { shard_id := sid, address := a, tcp_ok := t, missed_shares := m,
            is_self := is_self.getD false }
  | _, _, _, _ => .error .typeError

/-- models.py SentryStatus dataclass.  Fields index, address and tcp_ok have
no default; block_height defaults to None and rpc_ok to True. -/
structure SentryStatus where
  index : Int
  address : String
  tcp_ok : Bool
  block_height : Option Int
  rpc_ok : Bool
  deriving DecidableEq, Repr

/-- Python dataclass constructor call for SentryStatus.  The host parameter
models the keyword argument host passed in checker.py: SentryStatus has no
host field, so supplying it raises TypeError, as does omitting a field
without a default (index, address, tcp_ok). -/
def SentryStatus.construct (index : Option Int) (address : Option String)
    (tcp_ok : Option Bool) (block_height : Option (Option Int))
    (rpc_ok : Option Bool) (host : Option String) : Except PyErr SentryStatus :=
  if host.isSome then .error .typeError
  else
    match index, address, tcp_ok with
    | some i, some a, some t =>
        .ok { index := i, address := a, tcp_ok := t,
              block_height := block_height.getD none, rpc_ok := rpc_ok.getD true }
    | _, _, _ => .error .typeError

/-- models.py FullReport dataclass plus the attributes that checker.py
creates dynamically on report instances.  For the dynamically created
attributes (everything below the dynamic marker), none means the attribute
was never assigned, so reading it raises AttributeError; for the declared
dataclass fields none is the Python value None. -/
structure FullReport where
  timestamp : ℚ := 0
  last_prevote_height : Option Int := none
  last_precommit_height : Option Int := none
  missed_prevotes : Option Int := none
  missed_precommits : Option Int := none
  seconds_since_last_precommit : Option ℚ := none
  insufficient_cosigner_errors : Option Int := none
  cosigners : List CosignerStatus := []
  sentries : List SentryStatus := []
  raft_election_timeouts : Option Int := none
  seconds_since_last_ephemeral_share : Option ℚ := none
  checks : List CheckResult := []
  metrics_ok : Bool := true
  -- dynamic attributes created by checker.py (not dataclass fields)
  is_raft_leader : Option Bool := none
  sentry_connect_tries : Option Int := none
  invalid_signature_errors : Option Int := none
  beyond_block_errors : Option Int := none
  failed_sign_votes : Option Int := none
  seconds_since_last_sign_finish : Option ℚ := none
  process_open_fds : Option Int := none
  process_max_fds : Option Int := none
  process_memory_bytes : Option Int := none
  go_goroutines : Option Int := none
  deriving DecidableEq, Repr

/-- models.py AlertState dataclass. -/
structure AlertState where
  severity : Severity
  message : String
  first_seen : ℚ
  last_alerted : ℚ
  count : Int
  deriving DecidableEq, Repr

/-! ### collector.py (pure parts) -/

/-- The parsed metrics mapping (collector.parse_prometheus_text output):
metric name, with label suffix for labeled metrics, to float value. -/
abbrev Metrics : Type := List (String × ℚ)

/-- collector.get_metric: exact-name lookup. -/
def get_metric (metrics : Metrics) (name : String) : Option ℚ :=
  dictGet metrics name

/-- collector.get_labeled_metrics: all keys of the form prefix\x7b...\x7d,
mapped to label-content to value. -/
def get_labeled_metrics (metrics : Metrics) (pfx : String) : List (String × ℚ) :=
  (metrics.filter
      (fun kv => (pfx ++ "\x7b").isPrefixOf kv.1 && kv.1.endsWith "\x7d")).map
    (fun kv => ((kv.1.drop (pfx.length + 1)).dropRight 1, kv.2))

/-- Digit-sequence accumulator for pyIntOfString. -/
def parseDigitsAux : List Char → Nat → Option Nat
  | [], acc => some acc
  | c :: rest, acc =>
      if c.isDigit then parseDigitsAux rest (acc * 10 + (c.toNat - 48)) else none

/-- Python int() applied to a string: an optional sign followed by a
non-empty digit sequence (whitespace and underscore tolerance of CPython is
not modelled); anything else raises ValueError (none here). -/
def pyIntOfString (s : String) : Option Int :=
  match s.toList with
  | [] => none
  | c :: rest =>
    if c = '-' then
      match rest with
      | [] => none
      | _ => (parseDigitsAux rest 0).map (fun n => -(n : Int))
    else if c = '+' then
      match rest with
      | [] => none
      | _ => (parseDigitsAux rest 0).map (fun n => (n : Int))
    else (parseDigitsAux (c :: rest) 0).map (fun n => (n : Int))

/-- collector.parse_address: rsplit host:port on the last colon (written
over the character list); the port is parsed with int(), which raises
ValueError on a non-numeric string.  An address without a colon yields
port 0. -/
def parse_address (addr : String) : Except PyErr (String × Int) :=
  let cs := addr.toList
  if cs.contains ':' then
    match cs.reverse.span (fun c => c != ':') with
    | (afterRev, _ :: beforeRev) =>
        let host := String.mk beforeRev.reverse
        let portStr := String.mk afterRev.reverse
        match pyIntOfString portStr with
        | some p => .ok (host, p)
        | none => .error .valueError
    | (_, []) => .ok (addr, 0)
  else
    .ok (addr, 0)

/-! ### config.py (the fields checker.py reads) -/

/-- The thresholds dictionary of config.py, modelled as a total record (the
embedded properties assume every key the checker reads is present). -/
structure Thresholds where
  missed_precommits : Int
  missed_prevotes : Int
  height_stale_checks : Nat
  rpc_port : Int
  sentry_height_divergence : Int
  goroutine_growth_checks : Nat
  sign_finish_stale_factor : ℚ
  ephemeral_share_stale_factor : ℚ
  fd_usage_percent : ℚ
  memory_bytes : ℚ
  deriving DecidableEq, Repr

/-- One entry of cfg.cosigners. -/
structure CosignerCfg where
  shard_id : Int
  address : String
  is_self : Bool
  deriving DecidableEq, Repr

/-- One entry of cfg.sentries. -/
structure SentryCfg where
  address : String
  deriving DecidableEq, Repr

/-- The slice of Config that checker.py reads. -/
structure Config where
  block_time : ℚ
  thresholds : Thresholds
  cosigners : List CosignerCfg
  sentries : List SentryCfg
  deriving DecidableEq, Repr

/-! ### checker.py -/

/-- The mutable per-process memory of checker.Checker.__init__. -/
structure Checker where
  prev_insufficient_cosigners : Option ℚ := none
  prev_raft_election_timeouts : Option ℚ := none
  prev_missed_shares : List (String × Int) := []
  cosigner_miss_streak : List (String × Nat) := []
  prev_height : Option Int := none
  height_stale_count : Nat := 0
  prev_sentry_connect_tries : Option ℚ := none
  prev_invalid_signatures : Option ℚ := none
  prev_beyond_block_errors : Option ℚ := none
  prev_failed_sign_votes : Option ℚ := none
  prev_goroutines : Option Int := none
  goroutine_grow_streak : Nat := 0
  deriving DecidableEq, Repr

/-- The is_active_follower condition of Checker._check_signing: ephemeral
shares are fresh, so this cosigner is an active Raft follower and a stale
signing height is expected. -/
def isActiveFollower (cfg : Config) (eph : Option ℚ) : Bool :=
  match eph with
  | some e => decide (e < cfg.block_time * 3)
  | none => false

/-- The height-stale block of Checker._check_signing (runs when the prevote
height is present): bump or reset the streak, remember the height, and emit
CRITICAL when the streak reached the threshold and the same-tick
ephemeral-share freshness does not mark this node as an active follower.
Python number formatting in messages is abstracted by toString. -/
def heightStaleBlock (cfg : Config) (prev_height : Option Int) (count : Nat)
    (current_height : Int) (eph : Option ℚ) : (Option Int × Nat) × CheckResult :=
  let count2 : Nat :=
    match prev_height with
    | some p => if current_height ≤ p then count + 1 else 0
    | none => 0
  -- If ephemeral shares are fresh, this cosigner is an active Raft follower
  let is_active_follower : Bool := isActiveFollower cfg eph
  let r :=
    if decide (cfg.thresholds.height_stale_checks ≤ count2) && !is_active_follower then
      mkCheckResult "height_stale" .critical
        ("Height stale at " ++ toString current_height ++ " for " ++ toString count2 ++ " checks")
        "height_stale"
    else
      mkCheckResult "height_stale" .ok
        ("Last prevote height: " ++ toString current_height) "height_stale"
  ((some current_height, count2), r)

/-- The insufficient-cosigner-errors counter block of Checker._check_signing.
Returns the updated previous value, the value for the report field (none when
the metric is absent) and the checks to append. -/
def insufficientCosignersBlock (m : Metrics) (prev : Option ℚ) :
    Option ℚ × Option Int × List CheckResult :=
  match get_metric m "signer_error_total_insufficient_cosigners" with
  | none => (prev, none, [])
  | some val =>
    let cks :=
      match prev with
      | some p =>
        if val - p > 0 then
          [mkCheckResult "insufficient_cosigners" .critical
            ("Insufficient cosigner errors: " ++ toString (pyInt val) ++
              " (+" ++ toString (pyInt (val - p)) ++ " since last check)")
            "insufficient_cosigners"]
        else
          [mkCheckResult "insufficient_cosigners" .ok
            ("Insufficient cosigner errors: " ++ toString (pyInt val) ++ " (stable)")
            "insufficient_cosigners"]
      | none =>
          [mkCheckResult "insufficient_cosigners" .ok
            ("Insufficient cosigner errors: " ++ toString (pyInt val) ++ " (stable)")
            "insufficient_cosigners"]
    (some val, some (pyInt val), cks)

/-- Checker._check_signing. -/
def checkSigning (chk : Checker) (cfg : Config) (m : Metrics) (report : FullReport)
    (checks : List CheckResult) : Checker × FullReport × List CheckResult :=
  let th := cfg.thresholds
  -- Last prevote height
  let report :=
    match get_metric m "signer_last_prevote_height" with
    | some v => {report with last_prevote_height := some (pyInt v)}
    | none => report
  -- Last precommit height
  let report :=
    match get_metric m "signer_last_precommit_height" with
    | some v => {report with last_precommit_height := some (pyInt v)}
    | none => report
  -- Height stale check
  let (chk, checks) :=
    match report.last_prevote_height with
    | some h =>
        let (st, r) :=
          heightStaleBlock cfg chk.prev_height chk.height_stale_count h
            report.seconds_since_last_ephemeral_share
        ({chk with prev_height := st.1, height_stale_count := st.2}, checks ++ [r])
    | none => (chk, checks)
  -- Missed prevotes
  let (report, checks) :=
    match get_metric m "signer_missed_prevotes" with
    | some v =>
        ({report with missed_prevotes := some (pyInt v)},
         checks ++
           [if pyInt v > th.missed_prevotes then
              mkCheckResult "missed_prevotes" .warning
                ("Missed prevotes (consecutive): " ++ toString (pyInt v)) "missed_prevotes"
            else
              mkCheckResult "missed_prevotes" .ok
                ("Missed prevotes (consecutive): " ++ toString (pyInt v)) "missed_prevotes"])
    | none => (report, checks)
  -- Missed precommits
  let (report, checks) :=
    match get_metric m "signer_missed_precommits" with
    | some v =>
        ({report with missed_precommits := some (pyInt v)},
         checks ++
           [if pyInt v > th.missed_precommits then
              mkCheckResult "missed_precommits" .critical
                ("Missed precommits (consecutive): " ++ toString (pyInt v)) "missed_precommits"
            else
              mkCheckResult "missed_precommits" .ok
                ("Missed precommits (consecutive): " ++ toString (pyInt v)) "missed_precommits"])
    | none => (report, checks)
  -- Seconds since last precommit (informational only; fresh precommit means
  -- this cosigner is the Raft leader — sets the dynamic attribute)
  let report :=
    match get_metric m "signer_seconds_since_last_precommit" with
    | some v =>
        {report with seconds_since_last_precommit := some v,
                     is_raft_leader := some (decide (v < cfg.block_time * 3))}
    | none => report
  -- Insufficient cosigner errors (counter — detect increase)
  let (p, fv, cks) := insufficientCosignersBlock m chk.prev_insufficient_cosigners
  let chk := {chk with prev_insufficient_cosigners := p}
  let report :=
    match fv with
    | some n => {report with insufficient_cosigner_errors := some n}
    | none => report
  (chk, report, checks ++ cks)

/-- The raft-election-timeouts counter block of Checker._check_raft. -/
def raftTimeoutsBlock (m : Metrics) (prev : Option ℚ) :
    Option ℚ × Option Int × List CheckResult :=
  match get_metric m "signer_total_raft_leader_election_timeout" with
  | none => (prev, none, [])
  | some val =>
    let cks :=
      match prev with
      | some p =>
        if val - p > 0 then
          [mkCheckResult "raft_election_timeouts" .warning
            ("Election timeouts: " ++ toString (pyInt val) ++
              " (+" ++ toString (pyInt (val - p)) ++ " since last check)")
            "raft_election_timeouts"]
        else
          [mkCheckResult "raft_election_timeouts" .ok
            ("Election timeouts: " ++ toString (pyInt val) ++ " (stable)")
            "raft_election_timeouts"]
      | none =>
          [mkCheckResult "raft_election_timeouts" .ok
            ("Election timeouts: " ++ toString (pyInt val) ++ " (stable)")
            "raft_election_timeouts"]
    (some val, some (pyInt val), cks)

/-- Checker._check_raft. -/
def checkRaft (chk : Checker) (m : Metrics) (report : FullReport)
    (checks : List CheckResult) : Checker × FullReport × List CheckResult :=
  -- Raft election timeouts (counter — detect increase)
  let (p, fv, cks) := raftTimeoutsBlock m chk.prev_raft_election_timeouts
  let chk := {chk with prev_raft_election_timeouts := p}
  let report :=
    match fv with
    | some n => {report with raft_election_timeouts := some n}
    | none => report
  let checks := checks ++ cks
  -- Seconds since last ephemeral share
  let report :=
    match get_metric m "signer_seconds_since_last_local_ephemeral_share_time" with
    | some v => {report with seconds_since_last_ephemeral_share := some v}
    | none => report
  (chk, report, checks)

/-- The sentry-connect-tries counter block of Checker._check_sentry_connect. -/
def sentryConnectBlock (m : Metrics) (prev : Option ℚ) :
    Option ℚ × Option Int × List CheckResult :=
  match get_metric m "signer_sentry_connect_tries" with
  | none => (prev, none, [])
  | some val =>
    let cks :=
      match prev with
      | some p =>
        if val - p > 0 then
          [mkCheckResult "sentry_connect_tries" .warning
            ("Sentry connect retries: " ++ toString (pyInt val) ++
              " (+" ++ toString (pyInt (val - p)) ++ " since last check)")
            "sentry_connect_tries"]
        else
          [mkCheckResult "sentry_connect_tries" .ok
            ("Sentry connect retries: " ++ toString (pyInt val) ++ " (stable)")
            "sentry_connect_tries"]
      | none =>
          [mkCheckResult "sentry_connect_tries" .ok
            ("Sentry connect retries: " ++ toString (pyInt val) ++ " (stable)")
            "sentry_connect_tries"]
    (some val, some (pyInt val), cks)

/-- Checker._check_sentry_connect. -/
def checkSentryConnect (chk : Checker) (m : Metrics) (report : FullReport)
    (checks : List CheckResult) : Checker × FullReport × List CheckResult :=
  let (p, fv, cks) := sentryConnectBlock m chk.prev_sentry_connect_tries
  ({chk with prev_sentry_connect_tries := p},
   (match fv with
    | some n => {report with sentry_connect_tries := some n}
    | none => report),
   checks ++ cks)

/-- The helper _counter_delta inside Checker._check_error_counters.  Returns
the updated previous value, the value for the report field and the checks to
append; the caller stores the field named by report_field. -/
def counterDeltaBlock (m : Metrics) (metric_name : String) (prev : Option ℚ)
    (check_name : String) (alert_key : String) (severity : CheckStatus)
    (label : String) : Option ℚ × Option Int × List CheckResult :=
  match get_metric m metric_name with
  | none => (prev, none, [])
  | some val =>
    let cks :=
      match prev with
      | some p =>
        if val - p > 0 then
          [mkCheckResult check_name severity
            (label ++ ": " ++ toString (pyInt val) ++
              " (+" ++ toString (pyInt (val - p)) ++ " since last check)")
            alert_key]
        else
          [mkCheckResult check_name .ok
            (label ++ ": " ++ toString (pyInt val) ++ " (stable)") alert_key]
      | none =>
          [mkCheckResult check_name .ok
            (label ++ ": " ++ toString (pyInt val) ++ " (stable)") alert_key]
    (some val, some (pyInt val), cks)

/-- Checker._check_error_counters. -/
def checkErrorCounters (chk : Checker) (m : Metrics) (report : FullReport)
    (checks : List CheckResult) : Checker × FullReport × List CheckResult :=
  let (p1, f1, c1) := counterDeltaBlock m "signer_error_total_invalid_signatures"
    chk.prev_invalid_signatures "invalid_signatures" "invalid_signatures"
    .critical "Invalid signature errors"
  let chk := {chk with prev_invalid_signatures := p1}
  let report :=
    match f1 with
    | some n => {report with invalid_signature_errors := some n}
    | none => report
  let checks := checks ++ c1
  let (p2, f2, c2) := counterDeltaBlock m "signer_total_beyond_block_errors"
    chk.prev_beyond_block_errors "beyond_block_errors" "beyond_block_errors"
    .warning "Beyond-block errors"
  let chk := {chk with prev_beyond_block_errors := p2}
  let report :=
    match f2 with
    | some n => {report with beyond_block_errors := some n}
    | none => report
  let checks := checks ++ c2
  let (p3, f3, c3) := counterDeltaBlock m "signer_total_failed_sign_vote"
    chk.prev_failed_sign_votes "failed_sign_votes" "failed_sign_votes"
    .warning "Failed sign votes"
  let chk := {chk with prev_failed_sign_votes := p3}
  let report :=
    match f3 with
    | some n => {report with failed_sign_votes := some n}
    | none => report
  (chk, report, checks ++ c3)

/-- The ephemeral-share staleness block of Checker._check_signing_freshness. -/
def ephemeralShareStaleBlock (cfg : Config) (eph : Option ℚ) : List CheckResult :=
  match eph with
  | some e =>
    let threshold := cfg.block_time * cfg.thresholds.ephemeral_share_stale_factor
    if e > threshold then
      [mkCheckResult "ephemeral_share_stale" .warning
        ("Last ephemeral share " ++ toString e ++ "s ago (threshold " ++ toString threshold ++ "s)")
        "ephemeral_share_stale"]
    else
      [mkCheckResult "ephemeral_share_stale" .ok
        ("Last ephemeral share " ++ toString e ++ "s ago") "ephemeral_share_stale"]
  | none => []

/-- Checker._check_signing_freshness.  Reading report.is_raft_leader raises
AttributeError when that dynamic attribute was never assigned. -/
def checkSigningFreshness (cfg : Config) (m : Metrics) (report : FullReport)
    (checks : List CheckResult) : Except PyErr (FullReport × List CheckResult) :=
  let th := cfg.thresholds
  -- Seconds since last sign finish (only meaningful for leader)
  match get_metric m "signer_seconds_since_last_local_sign_finish_time" with
  | some val =>
    let report := {report with seconds_since_last_sign_finish := some val}
    let threshold := cfg.block_time * th.sign_finish_stale_factor
    match report.is_raft_leader with
    | none => .error .attributeError
    | some is_leader =>
      let r :=
        if is_leader && decide (val > threshold) then
          mkCheckResult "sign_finish_stale" .warning
            ("Last sign finish " ++ toString val ++ "s ago (threshold " ++ toString threshold ++ "s)")
            "sign_finish_stale"
        else
          mkCheckResult "sign_finish_stale" .ok
            ("Last sign finish " ++ toString val ++ "s ago") "sign_finish_stale"
      .ok (report,
        (checks ++ [r]) ++
          ephemeralShareStaleBlock cfg report.seconds_since_last_ephemeral_share)
  | none =>
    .ok (report,
      checks ++ ephemeralShareStaleBlock cfg report.seconds_since_last_ephemeral_share)

/-- The goroutine-growth block of Checker._check_process_health. -/
def goroutineGrowthBlock (th : Thresholds) (prev : Option Int) (streak : Nat)
    (g : Int) : (Option Int × Nat) × CheckResult :=
  let streak2 : Nat :=
    match prev with
    | some p => if g > p then streak + 1 else 0
    | none => 0
  let r :=
    if th.goroutine_growth_checks ≤ streak2 then
      mkCheckResult "goroutine_growth" .warning
        ("Goroutines growing: " ++ toString g ++ " (growing for " ++ toString streak2 ++ " checks)")
        "goroutine_growth"
    else
      mkCheckResult "goroutine_growth" .ok
        ("Goroutines: " ++ toString g) "goroutine_growth"
  ((some g, streak2), r)

/-- Checker._check_process_health.  The _fmt_bytes human formatting of the
memory messages is abstracted by toString. -/
def checkProcessHealth (chk : Checker) (th : Thresholds) (m : Metrics)
    (report : FullReport) (checks : List CheckResult) :
    Checker × FullReport × List CheckResult :=
  -- File descriptor usage
  let open_fds := get_metric m "process_open_fds"
  let max_fds := get_metric m "process_max_fds"
  let report :=
    match open_fds with
    | some v => {report with process_open_fds := some (pyInt v)}
    | none => report
  let report :=
    match max_fds with
    | some v => {report with process_max_fds := some (pyInt v)}
    | none => report
  let checks :=
    match open_fds, max_fds with
    | some o, some mx =>
      if 0 < mx then
        let pct := o / mx * 100
        if pct > th.fd_usage_percent then
          checks ++ [mkCheckResult "fd_usage" .warning
            ("FD usage: " ++ toString (pyInt o) ++ "/" ++ toString (pyInt mx) ++
              " (" ++ toString pct ++ " percent, threshold " ++ toString th.fd_usage_percent ++ " percent)")
            "fd_usage"]
        else
          checks ++ [mkCheckResult "fd_usage" .ok
            ("FD usage: " ++ toString (pyInt o) ++ "/" ++ toString (pyInt mx) ++
              " (" ++ toString pct ++ " percent)") "fd_usage"]
      else checks
    | _, _ => checks
  -- Memory usage
  let (report, checks) :=
    match get_metric m "process_resident_memory_bytes" with
    | some mem =>
      ({report with process_memory_bytes := some (pyInt mem)},
       if th.memory_bytes > 0 ∧ mem > th.memory_bytes then
         checks ++ [mkCheckResult "memory_usage" .warning
           ("Resident memory: " ++ toString mem ++ " (threshold " ++ toString th.memory_bytes ++ ")")
           "memory_usage"]
       else
         checks ++ [mkCheckResult "memory_usage" .ok
           ("Resident memory: " ++ toString mem) "memory_usage"])
    | none => (report, checks)
  -- Goroutine growth
  match get_metric m "go_goroutines" with
  | some g =>
    let gi := pyInt g
    let report := {report with go_goroutines := some gi}
    let (st, r) := goroutineGrowthBlock th chk.prev_goroutines chk.goroutine_grow_streak gi
    ({chk with prev_goroutines := st.1, goroutine_grow_streak := st.2}, report, checks ++ [r])
  | none => (chk, report, checks)

/-- The missed-shares streak block inside the cosigner loop of
Checker._check_cosigners (runs when shares is not None and not is_self):
remember the value, bump or reset the per-address streak, and emit WARNING
once the streak reached 3. -/
def cosignerSharesBlock (shard_id : Int) (addr : String) (shares : Int)
    (prevShares : List (String × Int)) (streaks : List (String × Nat)) :
    List (String × Int) × List (String × Nat) × List CheckResult :=
  let prev := dictGet prevShares addr
  let prevShares2 := dictInsert prevShares addr shares
  let streaks2 :=
    match prev with
    | some p =>
      if shares > p then dictInsert streaks addr ((dictGet streaks addr).getD 0 + 1)
      else dictInsert streaks addr 0
    | none => dictInsert streaks addr 0
  let cks :=
    if 3 ≤ (dictGet streaks2 addr).getD 0 then
      [mkCheckResult ("cosigner_" ++ toString shard_id ++ "_shares") .warning
        ("Cosigner shard " ++ toString shard_id ++ " (" ++ addr ++ ") missed shares growing (" ++ toString shares ++ ")")
        ("cosigner_" ++ toString shard_id ++ "_shares")]
    else []
  (prevShares2, streaks2, cks)

/-- The per-cosigner loop body of Checker._check_cosigners.  The
CosignerStatus construction at checker.py:243 does not pass the required
tcp_ok argument, so it raises TypeError on the first cosigner. -/
def cosignerLoop (missed : List (String × Int)) :
    List CosignerCfg → Checker → FullReport → List CheckResult →
    Except PyErr (Checker × FullReport × List CheckResult)
  | [], chk, report, checks => .ok (chk, report, checks)
  | cs :: rest, chk, report, checks => do
      let addr := cs.address
      -- Self = cosigner whose address is NOT in metrics (no missed shares for self)
      let is_self : Bool := (!(addr == "")) && (!(memKey missed addr)) && (!missed.isEmpty)
      let shares : Option Int := if is_self then none else dictGet missed addr
      let status ← CosignerStatus.construct (some cs.shard_id)
        (some (if addr == "" then "(self)" else addr)) none (some shares) (some is_self)
      let report := {report with cosigners := report.cosigners ++ [status]}
      -- Missed shares — alert when streak of growth reaches 3
      let (chk, checks) :=
        match shares, is_self with
        | some sh, false =>
            let (prevShares2, streaks2, cks) :=
              cosignerSharesBlock cs.shard_id addr sh chk.prev_missed_shares
                chk.cosigner_miss_streak
            ({chk with prev_missed_shares := prevShares2, cosigner_miss_streak := streaks2},
             checks ++ cks)
        | _, _ => (chk, checks)
      cosignerLoop missed rest chk report checks

/-- Checker._check_cosigners.  An empty metrics dict is falsy in Python, so
the labeled metrics are only collected when the dict is present and
non-empty; a label without a quoted part is skipped (the IndexError from
label.split is caught). -/
def checkCosigners (chk : Checker) (cfg : Config) (metrics : Option Metrics)
    (report : FullReport) (checks : List CheckResult) :
    Except PyErr (Checker × FullReport × List CheckResult) :=
  let missed_shares_by_addr : List (String × Int) :=
    match metrics with
    | some m =>
        if m.isEmpty then []
        else
          (get_labeled_metrics m "signer_missed_ephemeral_shares").foldl
            (fun d lv =>
              match lv.1.splitOn "\"" with
              | _ :: addr_key :: _ => dictInsert d addr_key (pyInt lv.2)
              | _ => d)
            []
    | none => []
  cosignerLoop missed_shares_by_addr cfg.cosigners chk report checks

/-- The per-sentry loop body of Checker._check_sentries.  The SentryStatus
construction at checker.py:309 passes a host keyword argument that the
dataclass does not accept and omits the required tcp_ok field, so it raises
TypeError on the first sentry; a malformed port in the address raises
ValueError in parse_address before that.  fetchHeight stands for the
fetch_block_height probe (none = unreachable). -/
def sentryLoop (fetchHeight : String → Option Int) :
    List (Nat × SentryCfg) → FullReport → List CheckResult →
    Except PyErr (FullReport × List CheckResult)
  | [], report, checks => .ok (report, checks)
  | (i, sentry) :: rest, report, checks => do
      let addr := sentry.address
      let hp ← parse_address addr
      let host := hp.1
      let block_height := fetchHeight host
      let rpc_ok := block_height.isSome
      let status ← SentryStatus.construct (some ((i : Int) + 1)) (some addr) none
        (some block_height) (some rpc_ok) (some host)
      let report := {report with sentries := report.sentries ++ [status]}
      let checks :=
        if !rpc_ok then
          checks ++ [mkCheckResult ("sentry_" ++ toString i ++ "_rpc") .warning
            ("Sentry " ++ toString (i + 1) ++ " (" ++ addr ++ ") RPC unreachable")
            ("sentry_" ++ toString i ++ "_rpc")]
        else checks
      sentryLoop fetchHeight rest report checks

/-- Checker._check_sentries. -/
def checkSentries (cfg : Config) (fetchHeight : String → Option Int)
    (report : FullReport) (checks : List CheckResult) :
    Except PyErr (FullReport × List CheckResult) :=
  sentryLoop fetchHeight cfg.sentries.enum report checks

/-- Checker._check_sentry_divergence: max minus min over the successfully
observed sentry heights; with fewer than two valid heights nothing is
appended at all. -/
def checkSentryDivergence (th : Thresholds) (report : FullReport)
    (checks : List CheckResult) : List CheckResult :=
  let heights := report.sentries.filterMap (fun s => s.block_height)
  match heights with
  | [] => checks
  | [_] => checks
  | h :: t =>
    let divergence := t.foldl max h - t.foldl min h
    let max_allowed := th.sentry_height_divergence
    if divergence > max_allowed then
      checks ++ [mkCheckResult "sentry_height_divergence" .warning
        ("Sentry height divergence: " ++ toString divergence ++ " blocks (max " ++ toString max_allowed ++ ")")
        "sentry_height_divergence"]
    else
      checks ++ [mkCheckResult "sentry_height_divergence" .ok
        ("Sentry height divergence: " ++ toString divergence ++ " blocks")
        "sentry_height_divergence"]

/-- The metric-dependent part of Checker.run: when the metrics source is
unreachable (or no metrics URL is configured) only the CRITICAL
metrics_endpoint check is emitted; otherwise the six metric sub-checks run in
source order. -/
def metricPhase (chk : Checker) (cfg : Config) (metrics : Option Metrics) :
    Except PyErr (Checker × FullReport × List CheckResult) :=
  let report : FullReport := {}
  match metrics with
  | none =>
      .ok (chk, {report with metrics_ok := false},
        [mkCheckResult "metrics_endpoint" .critical "Metrics endpoint unreachable"
          "metrics_endpoint"])
  | some m => do
      let report := {report with metrics_ok := true}
      let (chk, report, checks) := checkRaft chk m report []
      let (chk, report, checks) := checkSigning chk cfg m report checks
      let (chk, report, checks) := checkSentryConnect chk m report checks
      let (chk, report, checks) := checkErrorCounters chk m report checks
      let (report, checks) ← checkSigningFreshness cfg m report checks
      let (chk, report, checks) := checkProcessHealth chk cfg.thresholds m report checks
      .ok (chk, report, checks)

/-- Checker.run.  The metrics parameter is the outcome of the fetch_metrics
call (none when the endpoint is unreachable or no metrics URL is
configured); fetchHeight is the fetch_block_height probe. -/
def Checker.run (chk : Checker) (cfg : Config) (metrics : Option Metrics)
    (fetchHeight : String → Option Int) : Except PyErr (Checker × FullReport) := do
  let (chk, report, checks) ← metricPhase chk cfg metrics
  let (chk, report, checks) ← checkCosigners chk cfg metrics report checks
  let (report, checks) ← checkSentries cfg fetchHeight report checks
  let checks := checkSentryDivergence cfg.thresholds report checks
  .ok (chk, {report with checks := checks})

/-! ### state.py -/

/-- The mutable state of StateManager (the state_file path and the timezone
handle are I/O plumbing and are not part of the core semantics). -/
structure StateManager where
  alert_cooldown : ℚ
  scheduled_hours : List Int
  active_alerts : List (String × AlertState) := []
  last_scheduled_hour : Option Int := none
  deriving DecidableEq, Repr

/-- The result dict of StateManager.process_report.  Recoveries are
(alert_key, last message, duration in seconds). -/
structure ProcessResult where
  new_alerts : List CheckResult
  re_alerts : List CheckResult
  recoveries : List (String × String × ℚ)
  deriving DecidableEq, Repr

/-- The current-problems dict built at the top of process_report: every
check whose status is WARNING or CRITICAL, keyed by alert_key (a later check
with the same key overwrites the earlier value). -/
def currentProblems (checks : List CheckResult) : List (String × CheckResult) :=
  checks.foldl
    (fun d c =>
      if c.status = .warning ∨ c.status = .critical then dictInsert d c.alert_key c
      else d)
    []

/-- One iteration of the for-loop over current_problems in process_report:
a fresh key creates an AlertState and a new alert; an ongoing key updates
message and count and re-alerts (any severity) when the cooldown elapsed. -/
def problemsStep (cooldown now : ℚ)
    (acc : List (String × AlertState) × List CheckResult × List CheckResult)
    (kc : String × CheckResult) :
    List (String × AlertState) × List CheckResult × List CheckResult :=
  let (active, news, res) := acc
  let (key, check) := kc
  match dictGet active key with
  | none =>
      (dictInsert active key
        { severity := check.severity, message := check.message,
          first_seen := now, last_alerted := now, count := 1 },
       news ++ [check], res)
  | some alert =>
      let alert1 := {alert with message := check.message, count := alert.count + 1}
      if cooldown ≤ now - alert1.last_alerted then
        (dictInsert active key {alert1 with last_alerted := now}, news, res ++ [check])
      else
        (dictInsert active key alert1, news, res)

/-- The whole for-loop over current_problems. -/
def problemsLoop (cooldown now : ℚ) (probs : List (String × CheckResult))
    (active : List (String × AlertState)) :
    List (String × AlertState) × List CheckResult × List CheckResult :=
  probs.foldl (problemsStep cooldown now) (active, [], [])

/-- StateManager.process_report with the time.time() read passed in as now.
After the problems loop, every active key not among the current problems is
popped (in order) and reported as a recovery. -/
def processReport (sm : StateManager) (now : ℚ) (checks : List CheckResult) :
    StateManager × ProcessResult :=
  let probs := currentProblems checks
  let (active1, news, res) := problemsLoop sm.alert_cooldown now probs sm.active_alerts
  let resolved := active1.filter (fun p => !(memKey probs p.1))
  let recoveries := resolved.map (fun p => (p.1, p.2.message, now - p.2.first_seen))
  let active2 := active1.filter (fun p => memKey probs p.1)
  ({sm with active_alerts := active2},
   { new_alerts := news, re_alerts := res, recoveries := recoveries })

/-- StateManager.is_scheduled_report_due with the datetime.now(tz).hour read
passed in as current_hour.  The else-branch of the source consists only of
comments and pass statements, so outside a scheduled hour nothing changes. -/
def isScheduledReportDue (sm : StateManager) (current_hour : Int) :
    StateManager × Bool :=
  if current_hour ∈ sm.scheduled_hours then
    if sm.last_scheduled_hour ≠ some current_hour then
      ({sm with last_scheduled_hour := some current_hour}, true)
    else (sm, false)
  else
    (sm, false)

/-! ### Streak automata: specification-side characterisation

The height-stale, cosigner-missed-shares and goroutine streak counters of
checker.py are all instances of one automaton: keep the previous value and a
streak that is bumped when a relation between previous and current value
holds and reset to 0 otherwise (and on the first observation).  The streak
after a run equals the number of trailing consecutive related adjacent pairs
of the observation sequence. -/

/-- One step of the previous-value/streak automaton. -/
def streakStep (rel : Int → Int → Bool) (s : Option Int × Nat) (v : Int) :
    Option Int × Nat :=
  (some v,
   match s.1 with
   | some p => if rel p v then s.2 + 1 else 0
   | none => 0)

/-- The automaton run from the fresh state. -/
def streakFold (rel : Int → Int → Bool) (vs : List Int) : Option Int × Nat :=
  vs.foldl (streakStep rel) (none, 0)

/-- Counts, walking the reversed remainder, how many adjacent pairs at the
end of the sequence satisfy rel previous current. -/
def trailingAux (rel : Int → Int → Bool) : Int → List Int → Nat
  | _, [] => 0
  | h, p :: rest => if rel p h then trailingAux rel p rest + 1 else 0

/-- The number of trailing consecutive rel-steps of a sequence. -/
def trailingRun (rel : Int → Int → Bool) (vs : List Int) : Nat :=
  match vs.reverse with
  | [] => 0
  | h :: rest => trailingAux rel h rest

/-- Non-progress relation of the height-stale check: the current value
failed to strictly increase over the previous one. -/
def downRel (p v : Int) : Bool := decide (v ≤ p)

/-- Strict-growth relation of the missed-shares and goroutine checks. -/
def growRel (p v : Int) : Bool := decide (p < v)

/-- Driver for the height-stale block: run the block of _check_signing over
a sequence of ticks, each tick being the observed prevote height together
with the same-tick ephemeral-share age, from a fresh Checker; returns the
final (prev_height, height_stale_count) state and the last emitted
height_stale result. -/
def runHeightTicks (cfg : Config) (ticks : List (Int × Option ℚ)) :
    (Option Int × Nat) × Option CheckResult :=
  ticks.foldl
    (fun acc t =>
      let br := heightStaleBlock cfg acc.1.1 acc.1.2 t.1 t.2
      (br.1, some br.2))
    ((none, 0), none)

/-- Driver for the goroutine-growth block of _check_process_health over a
sequence of observed goroutine counts, from a fresh Checker. -/
def runGoroutineTicks (th : Thresholds) (vs : List Int) :
    (Option Int × Nat) × Option CheckResult :=
  vs.foldl
    (fun acc v =>
      let br := goroutineGrowthBlock th acc.1.1 acc.1.2 v
      (br.1, some br.2))
    ((none, 0), none)

/-- Driver for the cosigner missed-shares block of _check_cosigners: one
fixed peer address observed once per tick, from a fresh Checker; returns the
final (prev_missed_shares, cosigner_miss_streak) dictionaries and the checks
appended on the last tick. -/
def runCosignerShares (shard_id : Int) (addr : String) (vs : List Int) :
    (List (String × Int) × List (String × Nat)) × Option (List CheckResult) :=
  vs.foldl
    (fun acc v =>
      let br := cosignerSharesBlock shard_id addr v acc.1.1 acc.1.2
      ((br.1, br.2.1), some br.2.2))
    (([], []), none)

/-- The re-alert condition of process_report for one key, relative to the
active-alerts dictionary at the start of the tick: the key is already active
and its cooldown has elapsed. -/
def reDue (active : List (String × AlertState)) (cooldown now : ℚ) (k : String) :
    Bool :=
  match dictGet active k with
  | some a => decide (cooldown ≤ now - a.last_alerted)
  | none => false

/-- A concrete thresholds record used by the concrete evaluations (the
values mirror config.py defaults where those exist). -/
def sampleThresholds : Thresholds :=
  { missed_precommits := 3, missed_prevotes := 5, height_stale_checks := 3,
    rpc_port := 26657, sentry_height_divergence := 5,
    goroutine_growth_checks := 3, sign_finish_stale_factor := 5,
    ephemeral_share_stale_factor := 5, fd_usage_percent := 90,
    memory_bytes := 0 }

/-- A concrete configuration with no cosigners and no sentries. -/
def sampleConfig : Config :=
  { block_time := 6, thresholds := sampleThresholds, cosigners := [], sentries := [] }

/-- A concrete configuration with one cosigner entry. -/
def cosignerConfigEx : Config :=
  { block_time := 6, thresholds := sampleThresholds,
    cosigners := [{ shard_id := 2, address := "tcp://10.0.0.2:9876", is_self := false }],
    sentries := [] }

/-- A concrete configuration with one sentry entry (parseable address). -/
def sentryConfigEx : Config :=
  { block_time := 6, thresholds := sampleThresholds, cosigners := [],
    sentries := [{ address := "10.0.0.5:26657" }] }

/-- A concrete StateManager holding one active CRITICAL alert. -/
def smCritEx : StateManager :=
  { alert_cooldown := 300, scheduled_hours := [],
    active_alerts := [("missed_precommits",
      { severity := .critical, message := "m", first_seen := 0, last_alerted := 0,
        count := 2 })] }

/-- A concrete StateManager holding one active WARNING alert. -/
def smWarnEx : StateManager :=
  { alert_cooldown := 300, scheduled_hours := [],
    active_alerts := [("w",
      { severity := .warning, message := "m", first_seen := 0, last_alerted := 0,
        count := 3 })] }

/-! ### Helper lemmas -/

/-- Truncation of an integer-valued rational is the integer itself. -/
theorem pyInt_intCast (n : Int) : pyInt (n : ℚ) = n := by
  unfold pyInt
  by_cases h : (0 : ℚ) ≤ (n : ℚ)
  · simp [h]
  · simp [h]

theorem dictGet_nil {α : Type} (k : String) : dictGet ([] : List (String × α)) k = none := rfl

theorem dictGet_cons {α : Type} (p : String × α) (d : List (String × α)) (k : String) :
    dictGet (p :: d) k = if p.1 = k then some p.2 else dictGet d k := by
  by_cases h : p.1 = k <;> simp [dictGet, List.find?_cons, h]

theorem memKey_cons {α : Type} (p : String × α) (d : List (String × α)) (k : String) :
    memKey (p :: d) k = true ↔ p.1 = k ∨ memKey d k = true := by
  by_cases h : p.1 = k <;> simp [memKey, dictGet_cons, h]

/-- A successful lookup exhibits a member of the list. -/
theorem dictGet_some_mem {α : Type} {d : List (String × α)} {k : String} {v : α}
    (h : dictGet d k = some v) : (k, v) ∈ d := by
  induction d with
  | nil => simp [dictGet] at h
  | cons p rest ih =>
    rw [dictGet_cons] at h
    by_cases hp : p.1 = k
    · rw [if_pos hp] at h
      have hv : p.2 = v := by simpa using h
      have hpv : p = (k, v) := by
        cases p with
        | mk a b =>
          simp only at hp hv
          rw [hp, hv]
      rw [← hpv]
      exact List.mem_cons_self _ _
    · rw [if_neg hp] at h
      exact List.mem_cons_of_mem _ (ih h)

/-- A member of the list makes memKey true. -/
theorem memKey_of_mem {α : Type} {d : List (String × α)} {p : String × α}
    (h : p ∈ d) : memKey d p.1 = true := by
  induction d with
  | nil => simp at h
  | cons q rest ih =>
    rcases List.mem_cons.mp h with h1 | h2
    · rw [memKey_cons]
      left
      rw [h1]
    · rw [memKey_cons]
      right
      exact ih h2

theorem dictGet_map_update {α : Type} (d : List (String × α)) (k k' : String) (v : α)
    (h : k' ≠ k) :
    dictGet (d.map (fun p => if p.1 = k then (k, v) else p)) k' = dictGet d k' := by
  induction d with
  | nil => rfl
  | cons p rest ih =>
    rw [List.map_cons, dictGet_cons, dictGet_cons]
    by_cases hp : p.1 = k
    · have h1 : ¬ (k = k') := fun he => h he.symm
      have h2 : ¬ (p.1 = k') := by rw [hp]; exact h1
      simp only [hp, if_true, h1, h2, if_false]
      exact ih
    · simp only [hp, if_false]
      by_cases hq : p.1 = k'
      · simp [hq]
      · simp only [hq, if_false]
        exact ih

theorem dictGet_append_single {α : Type} (d : List (String × α)) (k k' : String) (v : α)
    (h : k' ≠ k) : dictGet (d ++ [(k, v)]) k' = dictGet d k' := by
  induction d with
  | nil =>
    have h1 : ¬ (k = k') := fun he => h he.symm
    simp [dictGet_cons, dictGet_nil, h1]
  | cons p rest ih =>
    rw [List.cons_append, dictGet_cons, dictGet_cons]
    by_cases hq : p.1 = k'
    · simp [hq]
    · simp only [hq, if_false]
      exact ih

/-- Inserting at one key does not change lookups at another key. -/
theorem dictGet_insert_other {α : Type} (d : List (String × α)) (k k' : String) (v : α)
    (h : k' ≠ k) : dictGet (dictInsert d k v) k' = dictGet d k' := by
  unfold dictInsert
  by_cases hm : memKey d k
  · rw [if_pos hm]
    exact dictGet_map_update d k k' v h
  · rw [if_neg hm]
    exact dictGet_append_single d k k' v h

theorem streakFold_reverse (rel : Int → Int → Bool) (rvs : List Int) :
    streakFold rel rvs.reverse =
      (rvs.head?,
       match rvs with
       | [] => 0
       | h :: rest => trailingAux rel h rest) := by
  induction rvs with
  | nil => rfl
  | cons h rest ih =>
    unfold streakFold at ih ⊢
    rw [List.reverse_cons, List.foldl_append, ih]
    cases rest with
    | nil => simp [streakStep, trailingAux]
    | cons p rest2 => simp [streakStep, trailingAux]

/-- The automaton state after a run: the previous value is the last
observation and the streak is the trailing run length. -/
theorem streakFold_eq_trailing (rel : Int → Int → Bool) (vs : List Int) :
    streakFold rel vs = (vs.getLast?, trailingRun rel vs) := by
  have h := streakFold_reverse rel vs.reverse
  rw [List.reverse_reverse] at h
  rw [h]
  unfold trailingRun
  cases hv : vs.reverse with
  | nil =>
    have : vs = [] := by simpa using congrArg List.reverse hv
    simp [this]
  | cons a rest =>
    have hl : vs.getLast? = some a := by
      rw [← List.head?_reverse, hv]
      rfl
    simp [hv, hl]

/-- Resetting behaviour: one more step after a run, where the new value is
not rel-related to the last one, resets the streak to 0. -/
theorem streakFold_append_reset (rel : Int → Int → Bool) (vs : List Int) (v : Int)
    (h : ∀ p, (streakFold rel vs).1 = some p → rel p v = false) :
    (streakFold rel (vs ++ [v])).2 = 0 := by
  unfold streakFold
  rw [List.foldl_append]
  show (streakStep rel (streakFold rel vs) v).2 = 0
  unfold streakStep
  cases hp : (streakFold rel vs).1 with
  | none => simp
  | some p => simp [h p hp]

/-- A lookup right after inserting at the same key returns the inserted
value. -/
theorem dictGet_insert_same {α : Type} (d : List (String × α)) (k : String) (v : α) :
    dictGet (dictInsert d k v) k = some v := by
  unfold dictInsert
  by_cases hm : memKey d k
  · rw [if_pos hm]
    induction d with
    | nil => simp [memKey, dictGet] at hm
    | cons p rest ih =>
      rw [List.map_cons, dictGet_cons]
      by_cases hp : p.1 = k
      · simp [hp]
      · have hm' : memKey rest k = true := by
          rcases (memKey_cons p rest k).mp hm with h1 | h1
          · exact absurd h1 hp
          · exact h1
        simp only [hp, if_false]
        exact ih hm'
  · rw [if_neg hm]
    induction d with
    | nil => simp [dictGet_cons]
    | cons p rest ih =>
      have hp : ¬ (p.1 = k) := by
        intro h1
        exact hm ((memKey_cons p rest k).mpr (Or.inl h1))
      have hm' : ¬ memKey rest k = true := by
        intro h1
        exact hm ((memKey_cons p rest k).mpr (Or.inr h1))
      rw [List.cons_append, dictGet_cons, if_neg hp]
      exact ih hm'

theorem cosignerLoop_cons_error (missed : List (String × Int)) (cs : CosignerCfg)
    (rest : List CosignerCfg) (chk : Checker) (report : FullReport)
    (checks : List CheckResult) :
    cosignerLoop missed (cs :: rest) chk report checks = .error .typeError := rfl

theorem checkCosigners_cons_error (chk : Checker) (cfg : Config)
    (metrics : Option Metrics) (report : FullReport) (checks : List CheckResult)
    (c : CosignerCfg) (rest : List CosignerCfg) (h : cfg.cosigners = c :: rest) :
    checkCosigners chk cfg metrics report checks = .error .typeError := by
  unfold checkCosigners
  rw [h]
  exact cosignerLoop_cons_error _ _ _ _ _ _

theorem checkCosigners_nil (chk : Checker) (cfg : Config) (metrics : Option Metrics)
    (report : FullReport) (checks : List CheckResult) (h : cfg.cosigners = []) :
    checkCosigners chk cfg metrics report checks = .ok (chk, report, checks) := by
  unfold checkCosigners
  rw [h]
  rfl

theorem sentryLoop_cons_error (fh : String → Option Int) (i : Nat) (s : SentryCfg)
    (rest : List (Nat × SentryCfg)) (report : FullReport) (checks : List CheckResult) :
    ∃ e, sentryLoop fh ((i, s) :: rest) report checks = .error e := by
  cases hpa : parse_address s.address with
  | error e =>
    refine ⟨e, ?_⟩
    unfold sentryLoop
    simp only [hpa]
    rfl
  | ok hp =>
    refine ⟨.typeError, ?_⟩
    unfold sentryLoop
    simp only [hpa]
    rfl

theorem sentryLoop_cons_typeError (fh : String → Option Int) (i : Nat) (s : SentryCfg)
    (rest : List (Nat × SentryCfg)) (report : FullReport) (checks : List CheckResult)
    (hp : String × Int) (hpa : parse_address s.address = .ok hp) :
    sentryLoop fh ((i, s) :: rest) report checks = .error .typeError := by
  unfold sentryLoop
  simp only [hpa]
  rfl

theorem except_bind_ok {ε α β : Type} (a : α) (f : α → Except ε β) :
    (Except.ok a >>= f : Except ε β) = f a := rfl

theorem except_bind_error {ε α β : Type} (e : ε) (f : α → Except ε β) :
    (Except.error e >>= f : Except ε β) = .error e := rfl

theorem metricPhase_none (chk : Checker) (cfg : Config) :
    metricPhase chk cfg none =
      .ok (chk, ({ metrics_ok := false } : FullReport),
        [mkCheckResult "metrics_endpoint" .critical "Metrics endpoint unreachable"
          "metrics_endpoint"]) := rfl

theorem streakFold_append (rel : Int → Int → Bool) (vs : List Int) (v : Int) :
    streakFold rel (vs ++ [v]) = streakStep rel (streakFold rel vs) v := by
  unfold streakFold
  rw [List.foldl_append]
  rfl

theorem heightStaleBlock_state (cfg : Config) (st : Option Int × Nat) (v : Int)
    (eph : Option ℚ) : (heightStaleBlock cfg st.1 st.2 v eph).1 = streakStep downRel st v := by
  unfold heightStaleBlock streakStep downRel
  cases st.1 with
  | none => rfl
  | some p => by_cases hle : v ≤ p <;> simp [hle]

theorem runHeightTicks_state (cfg : Config) (ticks : List (Int × Option ℚ)) :
    (runHeightTicks cfg ticks).1 = streakFold downRel (ticks.map (fun t => t.1)) := by
  suffices h : ∀ (st : Option Int × Nat) (r : Option CheckResult),
      ((ticks.foldl
        (fun acc t =>
          let br := heightStaleBlock cfg acc.1.1 acc.1.2 t.1 t.2
          (br.1, some br.2))
        (st, r)).1 : Option Int × Nat)
        = (ticks.map (fun t => t.1)).foldl (streakStep downRel) st by
    exact h (none, 0) none
  induction ticks with
  | nil =>
    intro st r
    rfl
  | cons t rest ih =>
    intro st r
    simp only [List.foldl_cons, List.map_cons]
    rw [ih]
    rw [show (heightStaleBlock cfg (st, r).1.1 (st, r).1.2 t.1 t.2).1
        = streakStep downRel st t.1 from heightStaleBlock_state cfg st t.1 t.2]

theorem runHeightTicks_append (cfg : Config) (ticks : List (Int × Option ℚ))
    (h : Int) (eph : Option ℚ) :
    runHeightTicks cfg (ticks ++ [(h, eph)]) =
      ((heightStaleBlock cfg (runHeightTicks cfg ticks).1.1
          (runHeightTicks cfg ticks).1.2 h eph).1,
       some (heightStaleBlock cfg (runHeightTicks cfg ticks).1.1
          (runHeightTicks cfg ticks).1.2 h eph).2) := by
  unfold runHeightTicks
  rw [List.foldl_append]
  rfl

theorem heightStaleBlock_critical_iff (cfg : Config) (st : Option Int × Nat)
    (v : Int) (eph : Option ℚ) :
    ((heightStaleBlock cfg st.1 st.2 v eph).2.status = .critical
      ↔ (cfg.thresholds.height_stale_checks ≤ (streakStep downRel st v).2
          ∧ isActiveFollower cfg eph = false)) := by
  have hc : (heightStaleBlock cfg st.1 st.2 v eph).1.2 = (streakStep downRel st v).2 := by
    rw [heightStaleBlock_state]
  unfold heightStaleBlock at hc ⊢
  simp only at hc
  rw [hc]
  dsimp only
  by_cases hcond :
      (decide (cfg.thresholds.height_stale_checks ≤ (streakStep downRel st v).2)
        && !isActiveFollower cfg eph) = true
  · rw [if_pos hcond]
    simp only [Bool.and_eq_true, decide_eq_true_eq, Bool.not_eq_true'] at hcond
    simp [mkCheckResult, hcond]
  · rw [if_neg hcond]
    simp only [Bool.and_eq_true, decide_eq_true_eq, Bool.not_eq_true'] at hcond
    simp only [mkCheckResult]
    constructor
    · intro hcontra
      exact CheckStatus.noConfusion hcontra
    · intro hrhs
      exact absurd hrhs hcond

theorem streakFold_snd (rel : Int → Int → Bool) (vs : List Int) :
    (streakFold rel vs).2 = trailingRun rel vs := by
  rw [streakFold_eq_trailing]

theorem goroutineGrowthBlock_state (th : Thresholds) (st : Option Int × Nat)
    (v : Int) : (goroutineGrowthBlock th st.1 st.2 v).1 = streakStep growRel st v := by
  unfold goroutineGrowthBlock streakStep growRel
  cases st.1 with
  | none => rfl
  | some p => by_cases hgt : v > p <;> simp [hgt]

theorem runGoroutineTicks_state (th : Thresholds) (vs : List Int) :
    (runGoroutineTicks th vs).1 = streakFold growRel vs := by
  suffices h : ∀ (st : Option Int × Nat) (r : Option CheckResult),
      ((vs.foldl
        (fun acc v =>
          let br := goroutineGrowthBlock th acc.1.1 acc.1.2 v
          (br.1, some br.2))
        (st, r)).1 : Option Int × Nat)
        = vs.foldl (streakStep growRel) st by
    exact h (none, 0) none
  induction vs with
  | nil =>
    intro st r
    rfl
  | cons v rest ih =>
    intro st r
    simp only [List.foldl_cons]
    rw [ih]
    rw [show (goroutineGrowthBlock th (st, r).1.1 (st, r).1.2 v).1
        = streakStep growRel st v from goroutineGrowthBlock_state th st v]

theorem runGoroutineTicks_append (th : Thresholds) (vs : List Int) (v : Int) :
    runGoroutineTicks th (vs ++ [v]) =
      ((goroutineGrowthBlock th (runGoroutineTicks th vs).1.1
          (runGoroutineTicks th vs).1.2 v).1,
       some (goroutineGrowthBlock th (runGoroutineTicks th vs).1.1
          (runGoroutineTicks th vs).1.2 v).2) := by
  unfold runGoroutineTicks
  rw [List.foldl_append]
  rfl

theorem goroutineGrowthBlock_warning_iff (th : Thresholds) (st : Option Int × Nat)
    (v : Int) :
    ((goroutineGrowthBlock th st.1 st.2 v).2.status = .warning
      ↔ th.goroutine_growth_checks ≤ (streakStep growRel st v).2) := by
  have hc : (goroutineGrowthBlock th st.1 st.2 v).1.2 = (streakStep growRel st v).2 := by
    rw [goroutineGrowthBlock_state]
  unfold goroutineGrowthBlock at hc ⊢
  simp only at hc
  rw [hc]
  dsimp only
  by_cases hcond : th.goroutine_growth_checks ≤ (streakStep growRel st v).2
  · rw [if_pos hcond]
    simp [mkCheckResult, hcond]
  · rw [if_neg hcond]
    simp only [mkCheckResult]
    constructor
    · intro hcontra
      exact CheckStatus.noConfusion hcontra
    · intro hrhs
      exact absurd hrhs hcond

theorem cosignerSharesBlock_proj (sid : Int) (addr : String) (sh : Int)
    (ps : List (String × Int)) (ss : List (String × Nat)) :
    dictGet (cosignerSharesBlock sid addr sh ps ss).1 addr = some sh
    ∧ (dictGet (cosignerSharesBlock sid addr sh ps ss).2.1 addr).getD 0
        = (streakStep growRel (dictGet ps addr, (dictGet ss addr).getD 0) sh).2 := by
  unfold cosignerSharesBlock streakStep growRel
  dsimp only
  constructor
  · exact dictGet_insert_same ps addr sh
  · cases hp : dictGet ps addr with
    | none => simp [dictGet_insert_same]
    | some p =>
      by_cases hgt : sh > p
      · simp [dictGet_insert_same, hgt]
      · simp [dictGet_insert_same, hgt]

theorem cosignerSharesBlock_fires_iff (sid : Int) (addr : String) (sh : Int)
    (ps : List (String × Int)) (ss : List (String × Nat)) :
    ((cosignerSharesBlock sid addr sh ps ss).2.2 ≠ []
      ↔ 3 ≤ (streakStep growRel (dictGet ps addr, (dictGet ss addr).getD 0) sh).2) := by
  have hproj := (cosignerSharesBlock_proj sid addr sh ps ss).2
  rw [← hproj]
  unfold cosignerSharesBlock
  dsimp only
  by_cases hcond :
      3 ≤ (dictGet
        (match dictGet ps addr with
          | some p =>
            if sh > p then dictInsert ss addr ((dictGet ss addr).getD 0 + 1)
            else dictInsert ss addr 0
          | none => dictInsert ss addr 0) addr).getD 0
  · rw [if_pos hcond]
    simp [hcond]
  · rw [if_neg hcond]
    simp [hcond]

theorem runCosignerShares_state (sid : Int) (addr : String) (vs : List Int) :
    (dictGet (runCosignerShares sid addr vs).1.1 addr,
     (dictGet (runCosignerShares sid addr vs).1.2 addr).getD 0)
      = streakFold growRel vs := by
  suffices h : ∀ (ps : List (String × Int)) (ss : List (String × Nat))
      (r : Option (List CheckResult)),
      (dictGet ((vs.foldl
          (fun acc v =>
            let br := cosignerSharesBlock sid addr v acc.1.1 acc.1.2
            ((br.1, br.2.1), some br.2.2))
          ((ps, ss), r)).1.1) addr,
       (dictGet ((vs.foldl
          (fun acc v =>
            let br := cosignerSharesBlock sid addr v acc.1.1 acc.1.2
            ((br.1, br.2.1), some br.2.2))
          ((ps, ss), r)).1.2) addr).getD 0)
        = vs.foldl (streakStep growRel) (dictGet ps addr, (dictGet ss addr).getD 0) by
    exact h [] [] none
  induction vs with
  | nil =>
    intro ps ss r
    rfl
  | cons v rest ih =>
    intro ps ss r
    simp only [List.foldl_cons]
    rw [ih]
    have hp := cosignerSharesBlock_proj sid addr v ps ss
    rw [hp.1, hp.2]
    rfl

theorem runCosignerShares_append (sid : Int) (addr : String) (vs : List Int)
    (v : Int) :
    runCosignerShares sid addr (vs ++ [v]) =
      (((cosignerSharesBlock sid addr v (runCosignerShares sid addr vs).1.1
          (runCosignerShares sid addr vs).1.2).1,
        (cosignerSharesBlock sid addr v (runCosignerShares sid addr vs).1.1
          (runCosignerShares sid addr vs).1.2).2.1),
       some (cosignerSharesBlock sid addr v (runCosignerShares sid addr vs).1.1
          (runCosignerShares sid addr vs).1.2).2.2) := by
  unfold runCosignerShares
  rw [List.foldl_append]
  rfl

/-! ### Claim theorems -/

/-- C5 (confirmed): running the height-stale block of _check_signing over
any sequence of ticks (observed prevote height plus same-tick ephemeral
share age), the result emitted on the last tick is CRITICAL exactly when the
height failed to strictly increase on at least height_stale_checks trailing
consecutive ticks and the same-tick active-follower suppression does not
hold; and a strict increase on the last tick resets the streak counter
to 0. -/
theorem C5_height_stale_iff (cfg : Config) (ticks : List (Int × Option ℚ))
    (h : Int) (eph : Option ℚ) :
    (∃ r, (runHeightTicks cfg (ticks ++ [(h, eph)])).2 = some r ∧
      (r.status = .critical ↔
        (cfg.thresholds.height_stale_checks
            ≤ trailingRun downRel ((ticks ++ [(h, eph)]).map (fun t => t.1))
          ∧ isActiveFollower cfg eph = false)))
    ∧ (∀ p, (streakFold downRel (ticks.map (fun t => t.1))).1 = some p → p < h →
        (runHeightTicks cfg (ticks ++ [(h, eph)])).1.2 = 0) := by
  have hmap : (ticks ++ [(h, eph)]).map (fun t => t.1)
      = ticks.map (fun t => t.1) ++ [h] := by
    simp
  constructor
  · refine ⟨(heightStaleBlock cfg (runHeightTicks cfg ticks).1.1
      (runHeightTicks cfg ticks).1.2 h eph).2, ?_, ?_⟩
    · rw [runHeightTicks_append]
    · rw [runHeightTicks_state,
        heightStaleBlock_critical_iff cfg
          (streakFold downRel (ticks.map (fun t => t.1))) h eph,
        show (streakStep downRel (streakFold downRel (ticks.map (fun t => t.1))) h).2
            = trailingRun downRel ((ticks ++ [(h, eph)]).map (fun t => t.1)) by
          rw [hmap, ← streakFold_append, streakFold_snd]]
  · intro p hp hph
    rw [runHeightTicks_append]
    dsimp only
    rw [heightStaleBlock_state cfg (runHeightTicks cfg ticks).1 h eph,
      runHeightTicks_state]
    unfold streakStep
    dsimp only
    rw [hp]
    simp [downRel, not_le.mpr hph]

/-- C5 (witness): a strict increase after two non-increasing ticks resets
the streak to 0. -/
theorem C5_height_stale_iff_witness :
    (runHeightTicks sampleConfig ([(5, none), (4, none)] ++ [(6, none)])).1.2 = 0 :=
  (C5_height_stale_iff sampleConfig [(5, none), (4, none)] 6 none).2 4
    (by decide) (by decide)

/-- C4 (counterexample): the claim says that for every configuration with at
least one cosigner Checker.run raises a TypeError; on a snapshot that
contains the sign-finish metric but not the precommit metric the run fails
earlier, in _check_signing_freshness, with an AttributeError (reading the
never-assigned report.is_raft_leader), not with a TypeError. -/
theorem C4_counterexample_attribute_error_first :
    Checker.run {} cosignerConfigEx
        (some [("signer_seconds_since_last_local_sign_finish_time", (10 : ℚ))])
        (fun _ => none)
      = .error .attributeError
    ∧ Checker.run {} cosignerConfigEx
        (some [("signer_seconds_since_last_local_sign_finish_time", (10 : ℚ))])
        (fun _ => none)
      ≠ .error .typeError := by
  constructor
  · decide
  · decide

/-- C4 (amended): for every configuration with at least one cosigner or at
least one sentry, Checker.run fails with an exception before completing, so
the pipeline can only produce a FullReport when both lists are empty; the
exception is the TypeError of the broken CosignerStatus construction (no
tcp_ok argument) whenever evaluation reaches _check_cosigners — in
particular always when the metrics source is unreachable — and the TypeError
of the broken SentryStatus construction (unknown host keyword, no tcp_ok)
whenever evaluation reaches _check_sentries with a parseable first sentry
address; on some snapshots an earlier exception (such as the AttributeError
of _check_signing_freshness) fires instead. -/
theorem C4_run_never_completes :
    (∀ (chk : Checker) (cfg : Config) (metrics : Option Metrics)
        (fh : String → Option Int),
      cfg.cosigners ≠ [] ∨ cfg.sentries ≠ [] →
      ∃ e, Checker.run chk cfg metrics fh = .error e)
    ∧ (∀ (chk : Checker) (cfg : Config) (fh : String → Option Int),
      cfg.cosigners ≠ [] →
      Checker.run chk cfg none fh = .error .typeError)
    ∧ (∀ (chk : Checker) (cfg : Config) (fh : String → Option Int)
        (s : SentryCfg) (rest : List SentryCfg) (hp : String × Int),
      cfg.cosigners = [] → cfg.sentries = s :: rest →
      parse_address s.address = .ok hp →
      Checker.run chk cfg none fh = .error .typeError) := by
  refine ⟨?_, ?_, ?_⟩
  · intro chk cfg metrics fh hne
    unfold Checker.run
    cases hmp : metricPhase chk cfg metrics with
    | error e =>
      exact ⟨e, by rw [except_bind_error]⟩
    | ok t =>
      obtain ⟨chk1, report1, checks1⟩ := t
      rw [except_bind_ok]
      dsimp only
      cases hcos : cfg.cosigners with
      | cons c crest =>
        refine ⟨.typeError, ?_⟩
        rw [checkCosigners_cons_error chk1 cfg metrics report1 checks1 c crest hcos,
          except_bind_error]
      | nil =>
        have hsent : cfg.sentries ≠ [] := by
          rcases hne with h1 | h1
          · exact absurd hcos h1
          · exact h1
        obtain ⟨s, srest, hs⟩ : ∃ s srest, cfg.sentries = s :: srest := by
          cases hl : cfg.sentries with
          | nil => exact absurd hl hsent
          | cons s srest => exact ⟨s, srest, rfl⟩
        rw [checkCosigners_nil chk1 cfg metrics report1 checks1 hcos, except_bind_ok]
        dsimp only
        unfold checkSentries
        have henum : cfg.sentries.enum = (0, s) :: srest.enumFrom 1 := by
          rw [hs]
          rfl
        rw [henum]
        obtain ⟨e, he⟩ := sentryLoop_cons_error fh 0 s (srest.enumFrom 1) report1 checks1
        exact ⟨e, by rw [he, except_bind_error]⟩
  · intro chk cfg fh hne
    obtain ⟨c, crest, hcos⟩ : ∃ c crest, cfg.cosigners = c :: crest := by
      cases hl : cfg.cosigners with
      | nil => exact absurd hl hne
      | cons c crest => exact ⟨c, crest, rfl⟩
    unfold Checker.run
    rw [metricPhase_none, except_bind_ok]
    dsimp only
    rw [checkCosigners_cons_error _ cfg none _ _ c crest hcos, except_bind_error]
  · intro chk cfg fh s srest hp hcos hsent hpa
    unfold Checker.run
    rw [metricPhase_none, except_bind_ok]
    dsimp only
    rw [checkCosigners_nil _ cfg none _ _ hcos, except_bind_ok]
    dsimp only
    unfold checkSentries
    have henum : cfg.sentries.enum = (0, s) :: srest.enumFrom 1 := by
      rw [hsent]
      rfl
    rw [henum, sentryLoop_cons_typeError fh 0 s (srest.enumFrom 1) _ _ hp hpa,
      except_bind_error]

/-- C4 (witness): the amended statement applied at concrete inputs — a
one-cosigner configuration with an empty metrics dict, the same with an
unreachable metrics source, and a one-sentry configuration with an
unreachable metrics source. -/
theorem C4_run_never_completes_witness :
    (∃ e, Checker.run {} cosignerConfigEx (some []) (fun _ => none) = .error e)
    ∧ Checker.run {} cosignerConfigEx none (fun _ => none) = .error .typeError
    ∧ Checker.run {} sentryConfigEx none (fun _ => none) = .error .typeError := by
  refine ⟨?_, ?_, ?_⟩
  · exact C4_run_never_completes.1 {} cosignerConfigEx (some []) (fun _ => none)
      (Or.inl (by decide))
  · exact C4_run_never_completes.2.1 {} cosignerConfigEx (fun _ => none) (by decide)
  · exact C4_run_never_completes.2.2 {} sentryConfigEx (fun _ => none)
      { address := "10.0.0.5:26657" } [] ("10.0.0.5", 26657) (by decide) (by decide)
      (by decide)

/-- C9 (code_bug evidence): the last_scheduled_hour gate of
is_scheduled_report_due is never reset — the else-branch of the source is
dead code (comments and pass only) although its comments say the gate should
be reset when the hour moves away — so with a single target hour 9 the
digest fires on the first tick at hour 9 and then never again: after the
hour changes away (10) a later tick during hour 9 (for example the next day)
still returns false, while the claim says it becomes due again.  The
concrete example of the claim with hours 9, 13, 17 does hold. -/
theorem C9_scheduler_reset_dead_code :
    (let sm0 : StateManager := { alert_cooldown := 300, scheduled_hours := [9] }
     let s1 := isScheduledReportDue sm0 9
     let s2 := isScheduledReportDue s1.1 10
     let s3 := isScheduledReportDue s2.1 9
     s1.2 = true ∧ s2.2 = false ∧ s3.2 = false)
    ∧ (let t0 : StateManager := { alert_cooldown := 300, scheduled_hours := [9, 13, 17] }
       let t1 := isScheduledReportDue t0 8
       let t2 := isScheduledReportDue t1.1 9
       let t3 := isScheduledReportDue t2.1 9
       let t4 := isScheduledReportDue t3.1 10
       let t5 := isScheduledReportDue t4.1 13
       let t6 := isScheduledReportDue t5.1 13
       t1.2 = false ∧ t2.2 = true ∧ t3.2 = false ∧ t4.2 = false ∧
         t5.2 = true ∧ t6.2 = false) := by
  constructor
  · decide
  · decide

/-- C10 (code_bug evidence): on a snapshot that contains
signer_seconds_since_last_local_sign_finish_time but lacks
signer_seconds_since_last_precommit, the leader role is never derived, and
Checker.run fails with an AttributeError when _check_signing_freshness reads
the never-assigned report.is_raft_leader — instead of completing with the
dependent check skipped or handled, as the claim (and the spec edge-case
policy) requires. -/
theorem C10_missing_role_attribute_error :
    Checker.run {} sampleConfig
        (some [("signer_seconds_since_last_local_sign_finish_time", (10 : ℚ))])
        (fun _ => none)
      = .error .attributeError := by
  decide

/-- C8 (confirmed): the sentry divergence check computes max minus min over
the successfully observed peer heights: with fewer than 2 valid heights no
sentry_height_divergence result is appended at all; with heights 100, 102,
107 and max-allowed 5 it appends WARNING with divergence 7; with heights
100, 101, 102 it appends OK with divergence 2. -/
theorem C8_sentry_divergence :
    (∀ (th : Thresholds) (report : FullReport) (checks : List CheckResult),
      (report.sentries.filterMap (fun s => s.block_height)).length < 2 →
      checkSentryDivergence th report checks = checks)
    ∧ checkSentryDivergence sampleThresholds
        { sentries := [⟨1, "s1", true, some 100, true⟩, ⟨2, "s2", true, some 102, true⟩,
                       ⟨3, "s3", true, some 107, true⟩] } []
      = [mkCheckResult "sentry_height_divergence" .warning
          "Sentry height divergence: 7 blocks (max 5)" "sentry_height_divergence"]
    ∧ checkSentryDivergence sampleThresholds
        { sentries := [⟨1, "s1", true, some 100, true⟩, ⟨2, "s2", true, some 101, true⟩,
                       ⟨3, "s3", true, some 102, true⟩] } []
      = [mkCheckResult "sentry_height_divergence" .ok
          "Sentry height divergence: 2 blocks" "sentry_height_divergence"]
    ∧ checkSentryDivergence sampleThresholds
        { sentries := [⟨1, "s1", true, some 100, true⟩, ⟨2, "s2", false, none, false⟩] } []
      = [] := by
  refine ⟨?_, by decide, by decide, by decide⟩
  intro th report checks hlen
  unfold checkSentryDivergence
  cases hh : report.sentries.filterMap (fun s => s.block_height) with
  | nil => rfl
  | cons a t =>
    cases t with
    | nil => rfl
    | cons b t2 =>
      rw [hh] at hlen
      simp only [List.length_cons] at hlen
      omega

/-- C8 (witness): the skip clause applied at a report with a single valid
height. -/
theorem C8_sentry_divergence_witness :
    checkSentryDivergence sampleThresholds
      { sentries := [⟨1, "s1", true, some 100, true⟩] } [] = [] :=
  C8_sentry_divergence.1 sampleThresholds
    { sentries := [⟨1, "s1", true, some 100, true⟩] } [] (by decide)

/-- C7 (confirmed): the two streak-on-growth-with-debounce checks.  The
goroutine-growth block fires WARNING on the last tick exactly when the
trailing run of strict increases reached goroutine_growth_checks, and the
cosigner missed-shares block appends its WARNING exactly when the trailing
run of strict increases reached 3 — so with threshold 3 neither fires on 1
or 2 consecutive strict increases and both fire on the 3rd; any non-increase
(including equality) on the last tick resets the streak counter to 0; and a
run of exactly three consecutive strict increases has trailing-run 3 while
its first two have trailing-run 2. -/
theorem C7_growth_debounce :
    (∀ (th : Thresholds) (vs : List Int) (v : Int),
      ∃ r, (runGoroutineTicks th (vs ++ [v])).2 = some r ∧
        (r.status = .warning
          ↔ th.goroutine_growth_checks ≤ trailingRun growRel (vs ++ [v])))
    ∧ (∀ (th : Thresholds) (vs : List Int) (v : Int) (p : Int),
        (streakFold growRel vs).1 = some p → v ≤ p →
        (runGoroutineTicks th (vs ++ [v])).1.2 = 0)
    ∧ (∀ (sid : Int) (addr : String) (vs : List Int) (v : Int),
      ∃ cks, (runCosignerShares sid addr (vs ++ [v])).2 = some cks ∧
        (cks ≠ [] ↔ 3 ≤ trailingRun growRel (vs ++ [v])))
    ∧ (∀ (sid : Int) (addr : String) (vs : List Int) (v : Int) (p : Int),
        (streakFold growRel vs).1 = some p → v ≤ p →
        (dictGet (runCosignerShares sid addr (vs ++ [v])).1.2 addr).getD 0 = 0)
    ∧ (∀ a b c d : Int, a < b → b < c → c < d →
        trailingRun growRel [a, b, c, d] = 3 ∧ trailingRun growRel [a, b, c] = 2) := by
  refine ⟨?_, ?_, ?_, ?_, ?_⟩
  · intro th vs v
    refine ⟨(goroutineGrowthBlock th (runGoroutineTicks th vs).1.1
      (runGoroutineTicks th vs).1.2 v).2, ?_, ?_⟩
    · rw [runGoroutineTicks_append]
    · rw [runGoroutineTicks_state,
        goroutineGrowthBlock_warning_iff th (streakFold growRel vs) v,
        show (streakStep growRel (streakFold growRel vs) v).2
            = trailingRun growRel (vs ++ [v]) by
          rw [← streakFold_append, streakFold_snd]]
  · intro th vs v p hp hvp
    rw [runGoroutineTicks_append]
    dsimp only
    rw [goroutineGrowthBlock_state th (runGoroutineTicks th vs).1 v,
      runGoroutineTicks_state]
    unfold streakStep
    dsimp only
    rw [hp]
    simp [growRel, not_lt.mpr hvp]
  · intro sid addr vs v
    refine ⟨(cosignerSharesBlock sid addr v (runCosignerShares sid addr vs).1.1
      (runCosignerShares sid addr vs).1.2).2.2, ?_, ?_⟩
    · rw [runCosignerShares_append]
    · rw [cosignerSharesBlock_fires_iff sid addr v
        (runCosignerShares sid addr vs).1.1 (runCosignerShares sid addr vs).1.2]
      have hst := runCosignerShares_state sid addr vs
      rw [hst,
        show (streakStep growRel (streakFold growRel vs) v).2
            = trailingRun growRel (vs ++ [v]) by
          rw [← streakFold_append, streakFold_snd]]
  · intro sid addr vs v p hp hvp
    rw [runCosignerShares_append]
    dsimp only
    have hproj := (cosignerSharesBlock_proj sid addr v
      (runCosignerShares sid addr vs).1.1 (runCosignerShares sid addr vs).1.2).2
    rw [hproj]
    have hst := runCosignerShares_state sid addr vs
    rw [hst]
    unfold streakStep
    dsimp only
    rw [hp]
    simp [growRel, not_lt.mpr hvp]
  · intro a b c d hab hbc hcd
    constructor
    · show trailingAux growRel d [c, b, a] = 3
      simp [trailingAux, growRel, hab, hbc, hcd]
    · show trailingAux growRel c [b, a] = 2
      simp [trailingAux, growRel, hab, hbc]

/-- C7 (witness): a non-increase (equality) on the third tick resets both
streaks to 0; and three strict increases have trailing-run exactly 3. -/
theorem C7_growth_debounce_witness :
    (runGoroutineTicks sampleThresholds ([1, 2] ++ [2])).1.2 = 0
    ∧ (dictGet (runCosignerShares 2 "tcp://10.0.0.2:9876" ([1, 2] ++ [2])).1.2
        "tcp://10.0.0.2:9876").getD 0 = 0
    ∧ trailingRun growRel [1, 2, 3, 4] = 3 ∧ trailingRun growRel [1, 2, 3] = 2 := by
  refine ⟨?_, ?_, ?_⟩
  · exact C7_growth_debounce.2.1 sampleThresholds [1, 2] 2 2 (by decide) (by decide)
  · exact C7_growth_debounce.2.2.2.1 2 "tcp://10.0.0.2:9876" [1, 2] 2 2
      (by decide) (by decide)
  · exact C7_growth_debounce.2.2.2.2 1 2 3 4 (by decide) (by decide) (by decide)

/-- C6 (confirmed): every counter-delta check reports OK on the very first
observation of its metric regardless of the value, on later observations
fires at its fixed per-metric severity exactly when current minus previous
is positive, and unconditionally replaces the stored previous value; when
the metric is absent nothing changes and no check is emitted.  This covers
the _counter_delta helper (instantiated by _check_error_counters at
invalid_signatures with CRITICAL, beyond_block_errors with WARNING and
failed_sign_votes with WARNING) and the three inline counter blocks
insufficient_cosigners (CRITICAL), raft_election_timeouts (WARNING) and
sentry_connect_tries (WARNING). -/
theorem C6_counter_delta_first_observation_ok :
    (∀ (m : Metrics) (name : String) (prev : Option ℚ) (cn ak : String)
        (sev : CheckStatus) (lbl : String),
      (get_metric m name = none →
        counterDeltaBlock m name prev cn ak sev lbl = (prev, none, []))
      ∧ (∀ v, get_metric m name = some v → prev = none →
          (counterDeltaBlock m name prev cn ak sev lbl).1 = some v
          ∧ (counterDeltaBlock m name prev cn ak sev lbl).2.2.map (fun c => c.status)
              = [.ok])
      ∧ (∀ v p, get_metric m name = some v → prev = some p →
          (counterDeltaBlock m name prev cn ak sev lbl).1 = some v
          ∧ (counterDeltaBlock m name prev cn ak sev lbl).2.2.map (fun c => c.status)
              = [if v - p > 0 then sev else .ok]))
    ∧ (∀ (m : Metrics) (prev : Option ℚ),
      (get_metric m "signer_error_total_insufficient_cosigners" = none →
        insufficientCosignersBlock m prev = (prev, none, []))
      ∧ (∀ v, get_metric m "signer_error_total_insufficient_cosigners" = some v →
          prev = none →
          (insufficientCosignersBlock m prev).1 = some v
          ∧ (insufficientCosignersBlock m prev).2.2.map (fun c => c.status) = [.ok])
      ∧ (∀ v p, get_metric m "signer_error_total_insufficient_cosigners" = some v →
          prev = some p →
          (insufficientCosignersBlock m prev).1 = some v
          ∧ (insufficientCosignersBlock m prev).2.2.map (fun c => c.status)
              = [if v - p > 0 then .critical else .ok]))
    ∧ (∀ (m : Metrics) (prev : Option ℚ),
      (get_metric m "signer_total_raft_leader_election_timeout" = none →
        raftTimeoutsBlock m prev = (prev, none, []))
      ∧ (∀ v, get_metric m "signer_total_raft_leader_election_timeout" = some v →
          prev = none →
          (raftTimeoutsBlock m prev).1 = some v
          ∧ (raftTimeoutsBlock m prev).2.2.map (fun c => c.status) = [.ok])
      ∧ (∀ v p, get_metric m "signer_total_raft_leader_election_timeout" = some v →
          prev = some p →
          (raftTimeoutsBlock m prev).1 = some v
          ∧ (raftTimeoutsBlock m prev).2.2.map (fun c => c.status)
              = [if v - p > 0 then .warning else .ok]))
    ∧ (∀ (m : Metrics) (prev : Option ℚ),
      (get_metric m "signer_sentry_connect_tries" = none →
        sentryConnectBlock m prev = (prev, none, []))
      ∧ (∀ v, get_metric m "signer_sentry_connect_tries" = some v → prev = none →
          (sentryConnectBlock m prev).1 = some v
          ∧ (sentryConnectBlock m prev).2.2.map (fun c => c.status) = [.ok])
      ∧ (∀ v p, get_metric m "signer_sentry_connect_tries" = some v → prev = some p →
          (sentryConnectBlock m prev).1 = some v
          ∧ (sentryConnectBlock m prev).2.2.map (fun c => c.status)
              = [if v - p > 0 then .warning else .ok])) := by
  refine ⟨?_, ?_, ?_, ?_⟩
  · intro m name prev cn ak sev lbl
    refine ⟨?_, ?_, ?_⟩
    · intro hm
      unfold counterDeltaBlock
      rw [hm]
    · intro v hm hprev
      unfold counterDeltaBlock
      rw [hm, hprev]
      exact ⟨rfl, rfl⟩
    · intro v p hm hprev
      unfold counterDeltaBlock
      rw [hm, hprev]
      refine ⟨rfl, ?_⟩
      by_cases hd : v - p > 0 <;> simp [hd, mkCheckResult]
  · intro m prev
    refine ⟨?_, ?_, ?_⟩
    · intro hm
      unfold insufficientCosignersBlock
      rw [hm]
    · intro v hm hprev
      unfold insufficientCosignersBlock
      rw [hm, hprev]
      exact ⟨rfl, rfl⟩
    · intro v p hm hprev
      unfold insufficientCosignersBlock
      rw [hm, hprev]
      refine ⟨rfl, ?_⟩
      by_cases hd : v - p > 0 <;> simp [hd, mkCheckResult]
  · intro m prev
    refine ⟨?_, ?_, ?_⟩
    · intro hm
      unfold raftTimeoutsBlock
      rw [hm]
    · intro v hm hprev
      unfold raftTimeoutsBlock
      rw [hm, hprev]
      exact ⟨rfl, rfl⟩
    · intro v p hm hprev
      unfold raftTimeoutsBlock
      rw [hm, hprev]
      refine ⟨rfl, ?_⟩
      by_cases hd : v - p > 0 <;> simp [hd, mkCheckResult]
  · intro m prev
    refine ⟨?_, ?_, ?_⟩
    · intro hm
      unfold sentryConnectBlock
      rw [hm]
    · intro v hm hprev
      unfold sentryConnectBlock
      rw [hm, hprev]
      exact ⟨rfl, rfl⟩
    · intro v p hm hprev
      unfold sentryConnectBlock
      rw [hm, hprev]
      refine ⟨rfl, ?_⟩
      by_cases hd : v - p > 0 <;> simp [hd, mkCheckResult]

/-- C6 (witness): a first observation of value 5 reports OK; a second
observation 5 after previous 3 fires CRITICAL for the invalid-signatures
instantiation of _counter_delta; a second observation equal to the previous
stays OK for the inline raft block. -/
theorem C6_counter_delta_first_observation_ok_witness :
    ((counterDeltaBlock [("signer_error_total_invalid_signatures", (5 : ℚ))]
        "signer_error_total_invalid_signatures" none "invalid_signatures"
        "invalid_signatures" .critical "Invalid signature errors").2.2.map
        (fun c => c.status) = [.ok])
    ∧ ((counterDeltaBlock [("signer_error_total_invalid_signatures", (5 : ℚ))]
        "signer_error_total_invalid_signatures" (some 3) "invalid_signatures"
        "invalid_signatures" .critical "Invalid signature errors").2.2.map
        (fun c => c.status) = [if (5 : ℚ) - 3 > 0 then .critical else .ok])
    ∧ ((raftTimeoutsBlock [("signer_total_raft_leader_election_timeout", (4 : ℚ))]
        (some 4)).2.2.map (fun c => c.status)
          = [if (4 : ℚ) - 4 > 0 then .warning else .ok]) := by
  refine ⟨?_, ?_, ?_⟩
  · exact ((C6_counter_delta_first_observation_ok.1
      [("signer_error_total_invalid_signatures", (5 : ℚ))]
      "signer_error_total_invalid_signatures" none "invalid_signatures"
      "invalid_signatures" .critical "Invalid signature errors").2.1 5
      (by decide) rfl).2
  · exact ((C6_counter_delta_first_observation_ok.1
      [("signer_error_total_invalid_signatures", (5 : ℚ))]
      "signer_error_total_invalid_signatures" (some 3) "invalid_signatures"
      "invalid_signatures" .critical "Invalid signature errors").2.2 5 3
      (by decide) rfl).2
  · exact ((C6_counter_delta_first_observation_ok.2.2.1
      [("signer_total_raft_leader_election_timeout", (4 : ℚ))] (some 4)).2.2 4 4
      (by decide) rfl).2

theorem memKey_false_iff {α : Type} (d : List (String × α)) (k : String) :
    memKey d k = false ↔ ∀ x ∈ d, x.1 ≠ k := by
  constructor
  · intro h x hx hk
    have hm := memKey_of_mem hx
    rw [hk, h] at hm
    exact Bool.noConfusion hm
  · intro h
    have hf : d.find? (fun p => decide (p.1 = k)) = none :=
      List.find?_eq_none.mpr (fun x hx => by simpa using h x hx)
    simp [memKey, dictGet, hf]

theorem memKey_insert {α : Type} (d : List (String × α)) (k k' : String) (v : α) :
    memKey (dictInsert d k v) k' = true ↔ k' = k ∨ memKey d k' = true := by
  by_cases he : k' = k
  · subst he
    simp [memKey, dictGet_insert_same]
  · simp [memKey, dictGet_insert_other d k k' v he, he]

theorem mapFst_dictInsert {α : Type} (d : List (String × α)) (k : String) (v : α) :
    (dictInsert d k v).map Prod.fst
      = if memKey d k then d.map Prod.fst else d.map Prod.fst ++ [k] := by
  unfold dictInsert
  by_cases hm : memKey d k
  · simp only [hm, if_true]
    rw [List.map_map]
    apply List.map_congr_left
    intro p _
    by_cases hp : p.1 = k
    · simp [hp, Function.comp]
    · simp [hp, Function.comp]
  · simp [hm]

theorem dictInsert_keysND {α : Type} (d : List (String × α)) (k : String) (v : α)
    (h : (d.map Prod.fst).Nodup) : ((dictInsert d k v).map Prod.fst).Nodup := by
  rw [mapFst_dictInsert]
  by_cases hm : memKey d k
  · simpa [hm] using h
  · rw [if_neg hm, List.nodup_append]
    refine ⟨h, List.nodup_singleton k, ?_⟩
    intro a ha hak
    have ha' : a = k := by simpa using hak
    obtain ⟨x, hx, hxa⟩ := List.mem_map.mp ha
    have := (memKey_false_iff d k).mp (by simpa using hm) x hx
    exact this (by rw [hxa, ha'])

theorem currentProblems_aux_memKey (checks : List CheckResult) :
    ∀ (d : List (String × CheckResult)) (k : String),
      memKey (checks.foldl
        (fun d c =>
          if c.status = .warning ∨ c.status = .critical then dictInsert d c.alert_key c
          else d) d) k = true
        ↔ memKey d k = true
          ∨ ∃ c ∈ checks, (c.status = .warning ∨ c.status = .critical) ∧ c.alert_key = k := by
  induction checks with
  | nil =>
    intro d k
    simp
  | cons c rest ih =>
    intro d k
    simp only [List.foldl_cons]
    by_cases hb : c.status = .warning ∨ c.status = .critical
    · rw [if_pos hb, ih, memKey_insert]
      constructor
      · rintro ((hke | hmd) | ⟨x, hx, hbx, hkx⟩)
        · exact Or.inr ⟨c, List.mem_cons_self c rest, hb, hke.symm⟩
        · exact Or.inl hmd
        · exact Or.inr ⟨x, List.mem_cons_of_mem c hx, hbx, hkx⟩
      · rintro (hmd | ⟨x, hx, hbx, hkx⟩)
        · exact Or.inl (Or.inr hmd)
        · rcases List.mem_cons.mp hx with hxe | hxr
          · subst hxe
            exact Or.inl (Or.inl hkx.symm)
          · exact Or.inr ⟨x, hxr, hbx, hkx⟩
    · rw [if_neg hb, ih]
      constructor
      · rintro (hmd | ⟨x, hx, hbx, hkx⟩)
        · exact Or.inl hmd
        · exact Or.inr ⟨x, List.mem_cons_of_mem c hx, hbx, hkx⟩
      · rintro (hmd | ⟨x, hx, hbx, hkx⟩)
        · exact Or.inl hmd
        · rcases List.mem_cons.mp hx with hxe | hxr
          · subst hxe
            exact absurd hbx hb
          · exact Or.inr ⟨x, hxr, hbx, hkx⟩

theorem currentProblems_memKey (checks : List CheckResult) (k : String) :
    memKey (currentProblems checks) k = true
      ↔ ∃ c ∈ checks, (c.status = .warning ∨ c.status = .critical) ∧ c.alert_key = k := by
  unfold currentProblems
  rw [currentProblems_aux_memKey]
  simp [memKey, dictGet]

theorem currentProblems_aux_keysND (checks : List CheckResult) :
    ∀ (d : List (String × CheckResult)), (d.map Prod.fst).Nodup →
      ((checks.foldl
        (fun d c =>
          if c.status = .warning ∨ c.status = .critical then dictInsert d c.alert_key c
          else d) d).map Prod.fst).Nodup := by
  induction checks with
  | nil =>
    intro d hd
    exact hd
  | cons c rest ih =>
    intro d hd
    simp only [List.foldl_cons]
    by_cases hb : c.status = .warning ∨ c.status = .critical
    · rw [if_pos hb]
      exact ih _ (dictInsert_keysND d c.alert_key c hd)
    · rw [if_neg hb]
      exact ih d hd

theorem currentProblems_keysND (checks : List CheckResult) :
    ((currentProblems checks).map Prod.fst).Nodup :=
  currentProblems_aux_keysND checks [] (by simp)

theorem problemsStep_fst_other (cooldown now : ℚ)
    (acc : List (String × AlertState) × List CheckResult × List CheckResult)
    (x : String × CheckResult) (k : String) (h : x.1 ≠ k) :
    dictGet (problemsStep cooldown now acc x).1 k = dictGet acc.1 k := by
  obtain ⟨active, news, res⟩ := acc
  obtain ⟨xk, xc⟩ := x
  unfold problemsStep
  dsimp only at h ⊢
  cases hdg : dictGet active xk with
  | none =>
    exact dictGet_insert_other active xk k _ (Ne.symm h)
  | some a =>
    dsimp only
    by_cases hdue : cooldown ≤ now - a.last_alerted
    · rw [if_pos hdue]
      exact dictGet_insert_other active xk k _ (Ne.symm h)
    · rw [if_neg hdue]
      exact dictGet_insert_other active xk k _ (Ne.symm h)

theorem problemsLoop_active_other (cooldown now : ℚ) :
    ∀ (probs : List (String × CheckResult))
      (acc : List (String × AlertState) × List CheckResult × List CheckResult)
      (k : String), (∀ x ∈ probs, x.1 ≠ k) →
      dictGet (probs.foldl (problemsStep cooldown now) acc).1 k = dictGet acc.1 k := by
  intro probs
  induction probs with
  | nil =>
    intro acc k _
    rfl
  | cons x rest ih =>
    intro acc k h
    simp only [List.foldl_cons]
    rw [ih _ k (fun y hy => h y (List.mem_cons_of_mem x hy))]
    exact problemsStep_fst_other cooldown now acc x k (h x (List.mem_cons_self x rest))

theorem problemsLoop_re_aux (cooldown now : ℚ) :
    ∀ (probs : List (String × CheckResult))
      (acc : List (String × AlertState) × List CheckResult × List CheckResult),
      (probs.map Prod.fst).Nodup →
      (probs.foldl (problemsStep cooldown now) acc).2.2
        = acc.2.2 ++ (probs.filter
            (fun kc => reDue acc.1 cooldown now kc.1)).map (fun kc => kc.2) := by
  intro probs
  induction probs with
  | nil =>
    intro acc _
    simp
  | cons x rest ih =>
    intro acc hnd
    obtain ⟨active, news, res⟩ := acc
    rw [List.map_cons, List.nodup_cons] at hnd
    obtain ⟨hx_not, hnd'⟩ := hnd
    have hne : ∀ y ∈ rest, x.1 ≠ y.1 := by
      intro y hy he
      exact hx_not (he ▸ List.mem_map_of_mem Prod.fst hy)
    have hcongr : ∀ y ∈ rest,
        reDue (problemsStep cooldown now (active, news, res) x).1 cooldown now y.1
          = reDue active cooldown now y.1 := by
      intro y hy
      unfold reDue
      rw [problemsStep_fst_other cooldown now (active, news, res) x y.1 (hne y hy)]
    simp only [List.foldl_cons]
    rw [ih _ hnd', List.filter_congr hcongr]
    obtain ⟨xk, xc⟩ := x
    simp only [List.filter_cons]
    unfold problemsStep reDue
    dsimp only
    cases hdg : dictGet active xk with
    | none =>
      simp
    | some a =>
      dsimp only
      by_cases hdue : cooldown ≤ now - a.last_alerted
      · simp [hdue, List.append_assoc]
      · simp [hdue]

theorem processReport_re_alerts (sm : StateManager) (now : ℚ)
    (checks : List CheckResult) :
    (processReport sm now checks).2.re_alerts
      = ((currentProblems checks).filter
          (fun kc => reDue sm.active_alerts sm.alert_cooldown now kc.1)).map
          (fun kc => kc.2) := by
  have h := problemsLoop_re_aux sm.alert_cooldown now (currentProblems checks)
    (sm.active_alerts, [], []) (currentProblems_keysND checks)
  calc (processReport sm now checks).2.re_alerts
      = ((currentProblems checks).foldl (problemsStep sm.alert_cooldown now)
          (sm.active_alerts, ([] : List CheckResult), ([] : List CheckResult))).2.2 := rfl
    _ = _ := by
        rw [h]
        simp

theorem processReport_absent_key (sm : StateManager) (now : ℚ)
    (checks : List CheckResult) (key : String) (alert : AlertState)
    (hact : dictGet sm.active_alerts key = some alert)
    (habs : ∀ c ∈ checks, c.alert_key = key →
      ¬(c.status = .warning ∨ c.status = .critical)) :
    (key, alert.message, now - alert.first_seen)
        ∈ (processReport sm now checks).2.recoveries
    ∧ dictGet (processReport sm now checks).1.active_alerts key = none := by
  have hmem : memKey (currentProblems checks) key = false := by
    rw [← Bool.not_eq_true]
    intro hmt
    obtain ⟨c, hc, hbad, hkey⟩ := (currentProblems_memKey checks key).mp hmt
    exact habs c hc hkey hbad
  have hall : ∀ x ∈ currentProblems checks, x.1 ≠ key :=
    (memKey_false_iff (currentProblems checks) key).mp hmem
  have hact1 : dictGet
      ((currentProblems checks).foldl (problemsStep sm.alert_cooldown now)
        (sm.active_alerts, ([] : List CheckResult), ([] : List CheckResult))).1 key
      = some alert := by
    rw [problemsLoop_active_other sm.alert_cooldown now (currentProblems checks)
      (sm.active_alerts, [], []) key hall]
    exact hact
  have hmem1 := dictGet_some_mem hact1
  constructor
  · show (key, alert.message, now - alert.first_seen) ∈
      ((((currentProblems checks).foldl (problemsStep sm.alert_cooldown now)
        (sm.active_alerts, ([] : List CheckResult), ([] : List CheckResult))).1.filter
          (fun p => !(memKey (currentProblems checks) p.1))).map
        (fun p => (p.1, p.2.message, now - p.2.first_seen)))
    refine List.mem_map.mpr ⟨(key, alert), ?_, rfl⟩
    apply List.mem_filter.mpr
    refine ⟨hmem1, ?_⟩
    simp [hmem]
  · show dictGet
      ((((currentProblems checks)).foldl (problemsStep sm.alert_cooldown now)
        (sm.active_alerts, ([] : List CheckResult), ([] : List CheckResult))).1.filter
          (fun p => memKey (currentProblems checks) p.1)) key = none
    unfold dictGet
    rw [List.find?_eq_none.mpr ?_]
    · rfl
    · intro x hx
      have hxp := (List.mem_filter.mp hx).2
      simp only [decide_eq_true_eq]
      intro hxk
      rw [hxk, hmem] at hxp
      exact Bool.noConfusion hxp

/-- C3 (confirmed): for an active CRITICAL alert_key, on the first tick where
no CheckResult with that key and WARNING/CRITICAL status is present,
process_report removes its AlertState and includes the recovery (alert_key,
last known message, duration now minus first_seen) in that same tick — no
grace window. -/
theorem C3_critical_recovery_immediate (sm : StateManager) (now : ℚ)
    (checks : List CheckResult) (key : String) (alert : AlertState)
    (hact : dictGet sm.active_alerts key = some alert)
    (hcrit : alert.severity = .critical)
    (habs : ∀ c ∈ checks, c.alert_key = key →
      c.status ≠ .warning ∧ c.status ≠ .critical) :
    (key, alert.message, now - alert.first_seen)
        ∈ (processReport sm now checks).2.recoveries
    ∧ dictGet (processReport sm now checks).1.active_alerts key = none :=
  processReport_absent_key sm now checks key alert hact
    (fun c hc hk hb => by
      rcases habs c hc hk with ⟨h1, h2⟩
      rcases hb with hb | hb
      · exact h1 hb
      · exact h2 hb)

/-- C3 (witness): the theorem applied at a concrete one-alert state with an
empty check list. -/
theorem C3_critical_recovery_immediate_witness :
    ("missed_precommits", "m", (30 : ℚ) - 0)
        ∈ (processReport smCritEx 30 []).2.recoveries
    ∧ dictGet (processReport smCritEx 30 []).1.active_alerts "missed_precommits"
        = none :=
  C3_critical_recovery_immediate smCritEx 30 [] "missed_precommits"
    { severity := .critical, message := "m", first_seen := 0, last_alerted := 0,
      count := 2 }
    (by decide) rfl (fun c hc => absurd hc (List.not_mem_nil c))

/-- C2 (counterexample): the claim says a WARNING alert_key that disappears
for less than the cooldown produces neither a recovery nor a new-alert with
count and first_seen preserved, and that no recovery is ever emitted for a
WARNING alert.  In the code a WARNING key absent for one tick (30s, cooldown
300s) is immediately popped with a recovery, and its reappearance is a fresh
new-alert with count reset to 1 and a new first_seen. -/
theorem C2_counterexample_warning_recovery_emitted :
    (processReport smWarnEx 30 []).2.recoveries = [("w", "m", 30)]
    ∧ (processReport (processReport smWarnEx 30 []).1 60
        [mkCheckResult "w" .warning "m2" ""]).2.new_alerts
        = [mkCheckResult "w" .warning "m2" ""]
    ∧ dictGet (processReport (processReport smWarnEx 30 []).1 60
        [mkCheckResult "w" .warning "m2" ""]).1.active_alerts "w"
        = some { severity := .warning, message := "m2", first_seen := 60,
                 last_alerted := 60, count := 1 } := by
  refine ⟨?_, ?_, ?_⟩
  · decide
  · decide
  · decide

/-- C2 (amended): a WARNING-severity alert_key has no exit debounce: on the
first tick it stops appearing in the problem set, its AlertState is removed
and a recovery (alert_key, last message, now minus first_seen) is emitted on
that same tick, exactly as for CRITICAL; occurrence count and first_seen are
not preserved across a gap — when the key reappears later it is announced as
a new alert with a fresh AlertState (count 1, first_seen = now). -/
theorem C2_warning_no_grace_window :
    (∀ (sm : StateManager) (now : ℚ) (checks : List CheckResult) (key : String)
        (alert : AlertState),
      dictGet sm.active_alerts key = some alert →
      alert.severity = .warning →
      (∀ c ∈ checks, c.alert_key = key →
        c.status ≠ .warning ∧ c.status ≠ .critical) →
      (key, alert.message, now - alert.first_seen)
          ∈ (processReport sm now checks).2.recoveries
      ∧ dictGet (processReport sm now checks).1.active_alerts key = none)
    ∧ ((processReport (processReport smWarnEx 500 []).1 900
        [mkCheckResult "w" .warning "again" ""]).2.new_alerts
          = [mkCheckResult "w" .warning "again" ""]
      ∧ dictGet (processReport (processReport smWarnEx 500 []).1 900
          [mkCheckResult "w" .warning "again" ""]).1.active_alerts "w"
          = some { severity := .warning, message := "again", first_seen := 900,
                   last_alerted := 900, count := 1 }) := by
  constructor
  · intro sm now checks key alert hact hwarn habs
    exact processReport_absent_key sm now checks key alert hact
      (fun c hc hk hb => by
        rcases habs c hc hk with ⟨h1, h2⟩
        rcases hb with hb | hb
        · exact h1 hb
        · exact h2 hb)
  · exact ⟨by decide, by decide⟩

/-- C2 (witness): the amended statement applied at the concrete one-WARNING
state with an empty check list. -/
theorem C2_warning_no_grace_window_witness :
    ("w", "m", (500 : ℚ) - 0) ∈ (processReport smWarnEx 500 []).2.recoveries
    ∧ dictGet (processReport smWarnEx 500 []).1.active_alerts "w" = none :=
  C2_warning_no_grace_window.1 smWarnEx 500 [] "w"
    { severity := .warning, message := "m", first_seen := 0, last_alerted := 0,
      count := 3 }
    (by decide) rfl (fun c hc => absurd hc (List.not_mem_nil c))

/-- C1 (counterexample): the claim says a WARNING-severity problem is never
in the re-alert set no matter how much time has elapsed; in the code an
ongoing WARNING problem past the cooldown is re-alerted. -/
theorem C1_counterexample_warning_re_alerted :
    (processReport smWarnEx 400 [mkCheckResult "w" .warning "m" ""]).2.re_alerts
        = [mkCheckResult "w" .warning "m" ""]
    ∧ (mkCheckResult "w" .warning "m" "").severity = .warning := by
  exact ⟨by decide, by decide⟩

/-- C1 (amended): the re-alert set of process_report contains exactly those
current problems whose alert_key is already active and whose cooldown has
elapsed (now minus last_alerted at least cooldown), regardless of severity —
in list form, re_alerts equals the current problems filtered by that
condition, in order.  The missed_precommits end-to-end scenario holds as
claimed: the CRITICAL CheckResult produced by _check_signing for
missed_precommits 4 over threshold 3 is in new_alerts on the first tick, in
neither set on a second tick before the cooldown, and in re_alerts once the
cooldown elapsed. -/
theorem C1_re_alerts_cooldown_only :
    (∀ (sm : StateManager) (now : ℚ) (checks : List CheckResult),
      (processReport sm now checks).2.re_alerts
        = ((currentProblems checks).filter
            (fun kc => reDue sm.active_alerts sm.alert_cooldown now kc.1)).map
            (fun kc => kc.2))
    ∧ (let cks := (checkSigning {} sampleConfig
          [("signer_missed_precommits", (4 : ℚ))] {} []).2.2
       let sm0 : StateManager := { alert_cooldown := 300, scheduled_hours := [] }
       let t1 := processReport sm0 0 cks
       let t2 := processReport t1.1 30 cks
       let t3 := processReport t2.1 330 cks
       cks.map (fun c => (c.alert_key, c.status)) = [("missed_precommits", .critical)]
       ∧ t1.2.new_alerts = cks ∧ t1.2.re_alerts = []
       ∧ t2.2.new_alerts = [] ∧ t2.2.re_alerts = []
       ∧ t3.2.new_alerts = [] ∧ t3.2.re_alerts = cks) := by
  constructor
  · intro sm now checks
    exact processReport_re_alerts sm now checks
  · decide

end HorcruxMonitor
